import Mathlib

/-!
Shallow embedding of the gltfio asset pipeline (AssetPipeline.cpp): buffer
flattening, primitive flattening and UV parameterization over cgltf documents.

Pointers between cgltf records are modelled as `(arena, index)` pairs: the
arena tag identifies a concrete array allocation, so that sharing between an
input document and an output document stays observable (the C code's pointer
identity).  The byte payload of buffers is a list of cells.  External
collaborators (the cgltf typed-read helpers, `cgltf_node_transform_world`,
the filament matrix helpers and the xatlas chart builder) are modelled as
oracle inputs, as in the specification they are outside the core.
-/

/-- Reserved baked-UV attribute name (source constant `BAKED_UV_ATTRIB`). -/
def BAKED_UV_ATTRIB : String := "TEXCOORD_4"

/-- Reserved baked-UV attribute set index (source constant `BAKED_UV_ATTRIB_INDEX`). -/
def BAKED_UV_ATTRIB_INDEX : Nat := 4

/-- Generator string marking flattened documents (source constant `GENERATOR_ID`). -/
def GENERATOR_ID : String := "gltfio"

/-- Modelled from the spec: the `FILTER_TRIANGLES` flag bit is declared in the
    AssetPipeline.h header, which is not part of the sources; the spec (section 4.2)
    lists it as the single recognized option of the flags bitset.  Its concrete
    bit value is immaterial to the claims. -/
def FILTER_TRIANGLES : Nat := 1

/-- A reference between records.  The C code uses raw pointers; a pointer into
    an array is modelled as an arena tag naming the allocation plus an element
    index.  `dangling` is the well-defined-but-unusable pointer the C code
    produces when it applies `newArray + (p - oldArray)` arithmetic to a null
    `p` (the subtraction yields a garbage offset, so the result is a non-null
    pointer into nothing). -/
inductive Ptr where
  | null : Ptr
  | mk (arena idx : Nat) : Ptr
  | dangling : Ptr
deriving DecidableEq, Repr

instance : Inhabited Ptr := ⟨Ptr.null⟩

/-- Unguarded reference rewrite `newArray + (p - oldArray)` (no null check):
    a null input becomes a dangling non-null pointer. -/
def remapU (t : Nat) : Ptr → Ptr
  | Ptr.null => Ptr.dangling
  | Ptr.mk _ i => Ptr.mk t i
  | Ptr.dangling => Ptr.dangling

/-- Guarded reference rewrite `p ? newArray + (p - oldArray) : nullptr`. -/
def remapC (t : Nat) : Ptr → Ptr
  | Ptr.null => Ptr.null
  | Ptr.mk _ i => Ptr.mk t i
  | Ptr.dangling => Ptr.dangling

/-- Unguarded rewrite into a region of a larger array:
    `newArray + base + (p - oldArray)`. -/
def remapShiftU (t base : Nat) : Ptr → Ptr
  | Ptr.null => Ptr.dangling
  | Ptr.mk _ i => Ptr.mk t (base + i)
  | Ptr.dangling => Ptr.dangling

/-- Guarded rewrite into a region of a larger array. -/
def remapShiftC (t base : Nat) : Ptr → Ptr
  | Ptr.null => Ptr.null
  | Ptr.mk _ i => Ptr.mk t (base + i)
  | Ptr.dangling => Ptr.dangling

/-- Does the pointer address the array allocation tagged `a`? -/
def targetsArena (p : Ptr) (a : Nat) : Bool :=
  match p with
  | Ptr.mk b _ => b == a
  | _ => false

/-- One unit of buffer payload.  `flatten_buffers` treats payloads as opaque
    bytes; `flatten_prims` and `parameterize` write freshly typed fp32 / u32
    streams, modelled as typed cells. -/
inductive Cell where
  | byte (b : Nat) : Cell
  | f32 (q : ℚ) : Cell
  | u32 (n : Nat) : Cell
deriving DecidableEq, Repr

/-- Exact rational stand-in for a float3 (filament `float3`). -/
structure Vec3q where
  x : ℚ := 0
  y : ℚ := 0
  z : ℚ := 0
deriving DecidableEq, Repr

/-- Exact rational stand-in for a float4 (filament `float4`). -/
structure Vec4q where
  x : ℚ := 0
  y : ℚ := 0
  z : ℚ := 0
  w : ℚ := 0
deriving DecidableEq, Repr

/-- Column-major 3x3 matrix (filament `mat3f`). -/
structure Mat3q where
  c0 : Vec3q := {}
  c1 : Vec3q := {}
  c2 : Vec3q := {}
deriving DecidableEq, Repr

/-- Column-major 4x4 matrix (filament `mat4f`). -/
structure Mat4q where
  c0 : Vec4q := {}
  c1 : Vec4q := {}
  c2 : Vec4q := {}
  c3 : Vec4q := {}
deriving DecidableEq, Repr

/-- The identity 3x3 matrix. -/
def idMat3 : Mat3q :=
  { c0 := { x := 1 }, c1 := { y := 1 }, c2 := { z := 1 } }

/-- The identity 4x4 matrix. -/
def idMat4 : Mat4q :=
  { c0 := { x := 1 }, c1 := { y := 1 }, c2 := { z := 1 }, c3 := { w := 1 } }

/-- `(m * float4(v, 1)).xyz` — the position transform used while baking. -/
def applyMat4 (m : Mat4q) (v : Vec3q) : Vec3q :=
  { x := m.c0.x * v.x + m.c1.x * v.y + m.c2.x * v.z + m.c3.x,
    y := m.c0.y * v.x + m.c1.y * v.y + m.c2.y * v.z + m.c3.y,
    z := m.c0.z * v.x + m.c1.z * v.y + m.c2.z * v.z + m.c3.z }

/-- `m * v` for the 3x3 normal matrix. -/
def applyMat3 (m : Mat3q) (v : Vec3q) : Vec3q :=
  { x := m.c0.x * v.x + m.c1.x * v.y + m.c2.x * v.z,
    y := m.c0.y * v.x + m.c1.y * v.y + m.c2.y * v.z,
    z := m.c0.z * v.x + m.c1.z * v.y + m.c2.z * v.z }

/-- Componentwise minimum (filament `min` on `float3`). -/
def vmin3 (a b : Vec3q) : Vec3q :=
  { x := min a.x b.x, y := min a.y b.y, z := min a.z b.z }

/-- Componentwise maximum (filament `max` on `float3`). -/
def vmax3 (a b : Vec3q) : Vec3q :=
  { x := max a.x b.x, y := max a.y b.y, z := max a.z b.z }

/-- The exact value of `std::numeric_limits<float>::max()`:
    `(2 - 2^-23) * 2^127`.  Every finite float is bounded by it, so seeding a
    running minimum with it (as `bakeTransform` does) computes a true minimum
    for nonempty float streams. -/
def fltMaxQ : ℚ := 2 ^ 128 - 2 ^ 104

/-- Seed of the running minimum in `bakeTransform`. -/
def vecFltMax : Vec3q := { x := fltMaxQ, y := fltMaxQ, z := fltMaxQ }

/-- Seed of the running maximum (`std::numeric_limits<float>::lowest()`). -/
def vecFltLowest : Vec3q := { x := -fltMaxQ, y := -fltMaxQ, z := -fltMaxQ }

/-- cgltf component types (`cgltf_component_type`). -/
inductive ComponentType where
  | invalid | r8 | r8u | r16 | r16u | r32u | r32f
deriving DecidableEq, Repr

/-- cgltf element shapes (`cgltf_type`). -/
inductive ElemKind where
  | invalid | scalar | vec2 | vec3 | vec4 | mat2 | mat3 | mat4
deriving DecidableEq, Repr

/-- cgltf primitive topologies (`cgltf_primitive_type`). -/
inductive PrimKind where
  | points | lines | lineLoop | lineStrip | triangles | triangleStrip | triangleFan
deriving DecidableEq, Repr

/-- cgltf attribute semantics (`cgltf_attribute_type`). -/
inductive AttrKind where
  | invalid | position | normal | tangent | texcoord | color | joints | weights
deriving DecidableEq, Repr

/-- cgltf buffer-view usage kinds (`cgltf_buffer_view_type`). -/
inductive ViewKind where
  | invalid | indices | vertices
deriving DecidableEq, Repr

/-- Number of floats per element of each shape (source `getNumFloats`). -/
def getNumFloats : ElemKind → Nat
  | ElemKind.vec2 => 2
  | ElemKind.vec3 => 3
  | ElemKind.vec4 => 4
  | ElemKind.mat2 => 4
  | ElemKind.mat3 => 9
  | ElemKind.mat4 => 16
  | _ => 1

/-- cgltf_buffer: owns a byte region; `data` is null until loaded. -/
structure Buffer where
  size : Nat := 0
  data : Option (List Cell) := none
  uri : Option String := none
deriving DecidableEq, Repr

instance : Inhabited Buffer := ⟨{}⟩

/-- cgltf_buffer_view. -/
structure BufferView where
  buffer : Ptr := Ptr.null
  offset : Nat := 0
  size : Nat := 0
  stride : Nat := 0
  kind : ViewKind := ViewKind.invalid
deriving DecidableEq, Repr

instance : Inhabited BufferView := ⟨{}⟩

/-- cgltf_accessor (the sparse variant is kept as a flag only; sparse
    accessors are rejected by the pipeline stages). -/
structure Accessor where
  componentType : ComponentType := ComponentType.invalid
  kind : ElemKind := ElemKind.invalid
  offset : Nat := 0
  count : Nat := 0
  stride : Nat := 0
  bufferView : Ptr := Ptr.null
  hasMin : Bool := false
  minv : List ℚ := []
  hasMax : Bool := false
  maxv : List ℚ := []
  isSparse : Bool := false
deriving DecidableEq, Repr

instance : Inhabited Accessor := ⟨{}⟩

/-- cgltf_attribute: a named semantic slot on a primitive. -/
structure Attrib where
  name : String := ""
  kind : AttrKind := AttrKind.invalid
  index : Nat := 0
  data : Ptr := Ptr.null
deriving DecidableEq, Repr

instance : Inhabited Attrib := ⟨{}⟩

/-- cgltf_primitive. -/
structure Primitive where
  kind : PrimKind := PrimKind.points
  indices : Ptr := Ptr.null
  material : Ptr := Ptr.null
  attributes : List Attrib := []
deriving DecidableEq, Repr

instance : Inhabited Primitive := ⟨{}⟩

/-- cgltf_mesh. -/
structure Mesh where
  name : Option String := none
  primitives : List Primitive := []
deriving DecidableEq, Repr

instance : Inhabited Mesh := ⟨{}⟩

/-- cgltf_node.  The TRS / matrix payloads are consumed only by the external
    `cgltf_node_transform_world`, which is modelled as an oracle, so only the
    presence flags are kept. -/
structure Node where
  name : Option String := none
  parent : Ptr := Ptr.null
  children : List Ptr := []
  mesh : Ptr := Ptr.null
  hasTranslation : Bool := false
  hasRotation : Bool := false
  hasScale : Bool := false
  hasMatrix : Bool := false
deriving DecidableEq, Repr

instance : Inhabited Node := ⟨{}⟩

/-- cgltf_scene. -/
structure Scene where
  name : Option String := none
  nodes : List Ptr := []
deriving DecidableEq, Repr

instance : Inhabited Scene := ⟨{}⟩

/-- cgltf_image. -/
structure Image where
  uri : Option String := none
  bufferView : Ptr := Ptr.null
  mimeType : Option String := none
deriving DecidableEq, Repr

instance : Inhabited Image := ⟨{}⟩

/-- cgltf_texture. -/
structure Texture where
  image : Ptr := Ptr.null
  sampler : Ptr := Ptr.null
deriving DecidableEq, Repr

instance : Inhabited Texture := ⟨{}⟩

/-- cgltf_sampler: opaque to the pipeline (spec section 3). -/
structure Sampler where
  magFilter : Int := 0
  minFilter : Int := 0
  wrapS : Int := 0
  wrapT : Int := 0
deriving DecidableEq, Repr

instance : Inhabited Sampler := ⟨{}⟩

/-- cgltf_material, restricted to the seven texture slots the pipeline
    rewrites (`t0`..`t6` in `flattenBuffers`); all other fields are opaque
    payload that is copied wholesale. -/
structure Material where
  baseColorTexture : Ptr := Ptr.null
  metallicRoughnessTexture : Ptr := Ptr.null
  diffuseTexture : Ptr := Ptr.null
  specularGlossinessTexture : Ptr := Ptr.null
  normalTexture : Ptr := Ptr.null
  occlusionTexture : Ptr := Ptr.null
  emissiveTexture : Ptr := Ptr.null
deriving DecidableEq, Repr

instance : Inhabited Material := ⟨{}⟩

/-- cgltf asset metadata. -/
structure Asset where
  copyright : Option String := none
  generator : Option String := none
  version : Option String := none
deriving DecidableEq, Repr

/-- cgltf_data: the top-level document.  Each top-level array carries the
    arena tag of its current allocation. -/
structure Document where
  asset : Asset := {}
  buffersArena : Nat := 0
  buffers : List Buffer := []
  viewsArena : Nat := 0
  bufferViews : List BufferView := []
  accessorsArena : Nat := 0
  accessors : List Accessor := []
  imagesArena : Nat := 0
  images : List Image := []
  texturesArena : Nat := 0
  textures : List Texture := []
  materialsArena : Nat := 0
  materials : List Material := []
  samplersArena : Nat := 0
  samplers : List Sampler := []
  meshesArena : Nat := 0
  meshes : List Mesh := []
  nodesArena : Nat := 0
  nodes : List Node := []
  scenesArena : Nat := 0
  scenes : List Scene := []
  scene : Ptr := Ptr.null
deriving DecidableEq, Repr

instance : Inhabited Document := ⟨{}⟩

/-- The arena tags of all array allocations a document references at top
    level. -/
def docArenas (d : Document) : List Nat :=
  [d.buffersArena, d.viewsArena, d.accessorsArena, d.imagesArena,
   d.texturesArena, d.materialsArena, d.samplersArena, d.meshesArena,
   d.nodesArena, d.scenesArena]

/-- Index payload of a pointer.  The C code computes `p - arrayBase` without
    checking `p`; on a null or dangling pointer that subtraction is garbage
    (undefined behaviour), modelled here as index 0. -/
def ptrIdx : Ptr → Nat
  | Ptr.mk _ i => i
  | _ => 0

/-- Sum of the first `k` entries — the running `offsets[bufferIndex]` table
    of `flattenBuffers`. -/
def sumBefore (l : List Nat) (k : Nat) : Nat := (l.take k).sum

/-- Rewrite of the seven guarded material texture slots of `flattenBuffers`. -/
def remapMaterial (t : Nat) (m : Material) : Material :=
  { baseColorTexture := remapC t m.baseColorTexture,
    metallicRoughnessTexture := remapC t m.metallicRoughnessTexture,
    diffuseTexture := remapC t m.diffuseTexture,
    specularGlossinessTexture := remapC t m.specularGlossinessTexture,
    normalTexture := remapC t m.normalTexture,
    occlusionTexture := remapC t m.occlusionTexture,
    emissiveTexture := remapC t m.emissiveTexture }

/-- `Pipeline::flattenBuffers`: aggregate all buffers into a single buffer and
    clone the record graph, rewriting references.  `t` is the arena tag of the
    allocations made by this call (the C code allocates fresh arrays from the
    pipeline's storage).  The samplers array is not cloned: it is inherited
    through the `*resultAsset = *sourceAsset` struct copy, and texture records
    are copied with their `sampler` pointers untouched. -/
def flattenBuffers (src : Document) (t : Nat) : Document :=
  let sizes := src.buffers.map (·.size)
  let totalSize := sizes.sum
  -- memcpy of `size` bytes per source buffer, in order.
  let bufferData := (src.buffers.map (fun b => (b.data.getD []).take b.size)).flatten
  let buffer : Buffer := { size := totalSize, data := some bufferData, uri := none }
  let views := src.bufferViews.map fun v =>
    { v with buffer := Ptr.mk t 0,
             offset := v.offset + sumBefore sizes (ptrIdx v.buffer) }
  let accessors := src.accessors.map fun a =>
    { a with bufferView := remapU t a.bufferView }
  let images := src.images.map fun im =>
    { im with bufferView := remapC t im.bufferView }
  let textures := src.textures.map fun tx =>
    { tx with image := remapU t tx.image }
  let nodes := src.nodes.map fun nd =>
    { nd with mesh := remapC t nd.mesh }
  let scenes := src.scenes.map fun s =>
    { s with nodes := s.nodes.map (remapU t) }
  let materials := src.materials.map (remapMaterial t)
  let meshes := src.meshes.map fun ms =>
    { ms with primitives := ms.primitives.map fun p =>
        { p with material := remapU t p.material,
                 indices := remapU t p.indices,
                 attributes := p.attributes.map fun a =>
                   { a with data := remapU t a.data } } }
  { src with
    buffersArena := t, buffers := [buffer],
    viewsArena := t, bufferViews := views,
    accessorsArena := t, accessors := accessors,
    imagesArena := t, images := images,
    texturesArena := t, textures := textures,
    materialsArena := t, materials := materials,
    meshesArena := t, meshes := meshes,
    nodesArena := t, nodes := nodes,
    scenesArena := t, scenes := scenes,
    scene := remapU t src.scene }

/-! General list access helpers used by the correctness proofs. -/

theorem getD_of_lt {α : Type _} (l : List α) (k : Nat) (d : α) (h : k < l.length) :
    l.getD k d = l.get ⟨k, h⟩ := by
  rw [List.getD_eq_getElem?_getD, List.getElem?_eq_getElem h]
  rfl

theorem getD_map_of_lt {α β : Type _} (f : α → β) (l : List α) (k : Nat)
    (d : β) (d' : α) (h : k < l.length) :
    (l.map f).getD k d = f (l.getD k d') := by
  rw [getD_of_lt _ _ _ (by simpa using h), getD_of_lt _ _ _ h]
  simp

theorem getD_map_range {α : Type _} (f : Nat → α) (n k : Nat) (d : α) (h : k < n) :
    ((List.range n).map f).getD k d = f k := by
  rw [getD_map_of_lt f _ _ _ 0 (by simpa using h), getD_of_lt _ _ _ (by simpa using h)]
  simp

theorem getD_append_left {α : Type _} (l₁ l₂ : List α) (k : Nat) (d : α)
    (h : k < l₁.length) :
    (l₁ ++ l₂).getD k d = l₁.getD k d := by
  rw [List.getD_eq_getElem?_getD, List.getD_eq_getElem?_getD, List.getElem?_append]
  simp [h]

theorem getD_append_shift {α : Type _} (l₁ l₂ : List α) (k : Nat) (d : α) :
    (l₁ ++ l₂).getD (l₁.length + k) d = l₂.getD k d := by
  rw [List.getD_eq_getElem?_getD, List.getD_eq_getElem?_getD, List.getElem?_append]
  simp

theorem flatten_getD {α : Type _} (ls : List (List α)) (i j : Nat) (d : α) :
    ∀ (hi : i < ls.length), j < (ls.getD i []).length →
    ls.flatten.getD (((ls.take i).map List.length).sum + j) d = (ls.getD i []).getD j d := by
  induction ls generalizing i with
  | nil => intro hi; simp at hi
  | cons hd tl ih =>
      intro hi hj
      cases i with
      | zero =>
          simp only [List.take_zero, List.map_nil, List.sum_nil, Nat.zero_add,
            List.flatten_cons]
          exact getD_append_left hd tl.flatten j d (by simpa using hj)
      | succ i' =>
          simp only [List.take_succ_cons, List.map_cons, List.sum_cons, List.flatten_cons]
          rw [Nat.add_assoc, getD_append_shift]
          exact ih i' (by simpa using hi) (by simpa using hj)

theorem foldl_min_le_init (l : List ℚ) (i : ℚ) : l.foldl min i ≤ i := by
  induction l generalizing i with
  | nil => exact le_refl i
  | cons hd tl ih => exact le_trans (ih (min i hd)) (min_le_left i hd)

theorem foldl_min_le (l : List ℚ) (v : ℚ) (hv : v ∈ l) (i : ℚ) :
    l.foldl min i ≤ v := by
  induction l generalizing i with
  | nil => cases hv
  | cons hd tl ih =>
      rcases List.mem_cons.1 hv with h | h
      · subst h
        exact le_trans (foldl_min_le_init tl (min i v)) (min_le_right i v)
      · exact ih h (min i hd)

theorem foldl_min_mem (l : List ℚ) (i : ℚ) :
    l.foldl min i = i ∨ l.foldl min i ∈ l := by
  induction l generalizing i with
  | nil => exact Or.inl rfl
  | cons hd tl ih =>
      rcases ih (min i hd) with h | h
      · rcases le_total i hd with hle | hle
        · exact Or.inl (by rw [List.foldl_cons, h, min_eq_left hle])
        · exact Or.inr (by rw [List.foldl_cons, h, min_eq_right hle]; exact List.mem_cons_self hd tl)
      · exact Or.inr (List.mem_cons_of_mem hd h)

theorem init_le_foldl_max (l : List ℚ) (i : ℚ) : i ≤ l.foldl max i := by
  induction l generalizing i with
  | nil => exact le_refl i
  | cons hd tl ih => exact le_trans (le_max_left i hd) (ih (max i hd))

theorem le_foldl_max (l : List ℚ) (v : ℚ) (hv : v ∈ l) (i : ℚ) :
    v ≤ l.foldl max i := by
  induction l generalizing i with
  | nil => cases hv
  | cons hd tl ih =>
      rcases List.mem_cons.1 hv with h | h
      · subst h
        exact le_trans (le_max_right i v) (init_le_foldl_max tl (max i v))
      · exact ih h (max i hd)

theorem foldl_max_mem (l : List ℚ) (i : ℚ) :
    l.foldl max i = i ∨ l.foldl max i ∈ l := by
  induction l generalizing i with
  | nil => exact Or.inl rfl
  | cons hd tl ih =>
      rcases ih (max i hd) with h | h
      · rcases le_total hd i with hle | hle
        · exact Or.inl (by rw [List.foldl_cons, h, max_eq_left hle])
        · exact Or.inr (by rw [List.foldl_cons, h, max_eq_right hle]; exact List.mem_cons_self hd tl)
      · exact Or.inr (List.mem_cons_of_mem hd h)

/-- Projection of a componentwise-minimum fold to the x component (and
    analogously for y, z below): the `float3` fold computes three independent
    scalar folds. -/
theorem foldl_vmin3_x (l : List Vec3q) (i : Vec3q) :
    (l.foldl vmin3 i).x = (l.map (·.x)).foldl min i.x := by
  induction l generalizing i with
  | nil => rfl
  | cons hd tl ih => simpa [vmin3] using ih (vmin3 i hd)

theorem foldl_vmin3_y (l : List Vec3q) (i : Vec3q) :
    (l.foldl vmin3 i).y = (l.map (·.y)).foldl min i.y := by
  induction l generalizing i with
  | nil => rfl
  | cons hd tl ih => simpa [vmin3] using ih (vmin3 i hd)

theorem foldl_vmin3_z (l : List Vec3q) (i : Vec3q) :
    (l.foldl vmin3 i).z = (l.map (·.z)).foldl min i.z := by
  induction l generalizing i with
  | nil => rfl
  | cons hd tl ih => simpa [vmin3] using ih (vmin3 i hd)

theorem foldl_vmax3_x (l : List Vec3q) (i : Vec3q) :
    (l.foldl vmax3 i).x = (l.map (·.x)).foldl max i.x := by
  induction l generalizing i with
  | nil => rfl
  | cons hd tl ih => simpa [vmax3] using ih (vmax3 i hd)

theorem foldl_vmax3_y (l : List Vec3q) (i : Vec3q) :
    (l.foldl vmax3 i).y = (l.map (·.y)).foldl max i.y := by
  induction l generalizing i with
  | nil => rfl
  | cons hd tl ih => simpa [vmax3] using ih (vmax3 i hd)

theorem foldl_vmax3_z (l : List Vec3q) (i : Vec3q) :
    (l.foldl vmax3 i).z = (l.map (·.z)).foldl max i.z := by
  induction l generalizing i with
  | nil => rfl
  | cons hd tl ih => simpa [vmax3] using ih (vmax3 i hd)

/-! Pointer-rewrite helper lemmas. -/

theorem targetsArena_remapU (t a : Nat) (h : a ≠ t) (p : Ptr) :
    targetsArena (remapU t p) a = false := by
  cases p <;> simp [remapU, targetsArena, beq_iff_eq] <;> exact fun he => h he.symm

theorem targetsArena_remapC (t a : Nat) (h : a ≠ t) (p : Ptr) :
    targetsArena (remapC t p) a = false := by
  cases p <;> simp [remapC, targetsArena, beq_iff_eq] <;> exact fun he => h he.symm

theorem remapC_null_iff (t : Nat) (p : Ptr) :
    remapC t p = Ptr.null ↔ p = Ptr.null := by
  cases p <;> simp [remapC]

/-- C1: `flatten_buffers` returns a document with exactly one buffer holding
    the in-order concatenation of the byte regions of the source buffers, and
    every cloned buffer view references that single buffer with its offset
    shifted by the total size of the buffers preceding its source buffer. -/
theorem C1_flattenBuffers_concat_offsets (src : Document) (t : Nat)
    (hdata : ∀ b ∈ src.buffers, (b.data.getD []).length = b.size) :
    (flattenBuffers src t).buffers.length = 1 ∧
    ((flattenBuffers src t).buffers.getD 0 default).data =
      some ((src.buffers.map (fun b => b.data.getD [])).flatten) ∧
    ((flattenBuffers src t).buffers.getD 0 default).size =
      (src.buffers.map (·.size)).sum ∧
    (flattenBuffers src t).bufferViews.length = src.bufferViews.length ∧
    (flattenBuffers src t).accessors.length = src.accessors.length ∧
    ∀ i, i < src.bufferViews.length →
      ((flattenBuffers src t).bufferViews.getD i default).buffer = Ptr.mk t 0 ∧
      ∀ a k, (src.bufferViews.getD i default).buffer = Ptr.mk a k →
        k < src.buffers.length →
        ((flattenBuffers src t).bufferViews.getD i default).offset =
          (src.bufferViews.getD i default).offset +
            ((src.buffers.take k).map (·.size)).sum := by
  refine ⟨rfl, ?_, rfl, by simp [flattenBuffers], by simp [flattenBuffers], ?_⟩
  · show some ((src.buffers.map fun b => (b.data.getD []).take b.size).flatten) = _
    have : (src.buffers.map fun b => (b.data.getD []).take b.size)
         = src.buffers.map fun b => b.data.getD [] := by
      refine List.map_congr_left fun b hb => ?_
      rw [← hdata b hb]
      exact List.take_length _
    rw [this]
  · intro i hi
    have hv : (flattenBuffers src t).bufferViews
        = src.bufferViews.map (fun v =>
            { v with buffer := Ptr.mk t 0,
                     offset := v.offset +
                       sumBefore (src.buffers.map (·.size)) (ptrIdx v.buffer) }) := rfl
    constructor
    · rw [hv, getD_map_of_lt _ _ _ _ default hi]
    · intro a k hbuf hk
      rw [hv, getD_map_of_lt _ _ _ _ default hi]
      simp only [sumBefore, hbuf, ptrIdx, List.map_take]

/-- Concrete input for the C1 witness: three buffers of sizes 4, 8 and 2, and
    a buffer view into the third buffer at offset 1 (spec scenario 3). -/
def byteList (l : List Nat) : List Cell := l.map Cell.byte

/-- Three-buffer document used as the C1 witness input. -/
def docA : Document :=
  { buffersArena := 0,
    buffers :=
      [ { size := 4, data := some (byteList [0, 1, 2, 3]) },
        { size := 8, data := some (byteList [4, 5, 6, 7, 8, 9, 10, 11]) },
        { size := 2, data := some (byteList [12, 13]) } ],
    viewsArena := 0,
    bufferViews := [ { buffer := Ptr.mk 0 2, offset := 1, size := 1 } ] }

theorem C1_flattenBuffers_concat_offsets_witness :
    (flattenBuffers docA 1).buffers.length = 1 ∧
    ((flattenBuffers docA 1).buffers.getD 0 default).data =
      some (byteList [0, 1, 2, 3, 4, 5, 6, 7, 8, 9, 10, 11, 12, 13]) ∧
    ((flattenBuffers docA 1).bufferViews.getD 0 default).buffer = Ptr.mk 1 0 ∧
    ((flattenBuffers docA 1).bufferViews.getD 0 default).offset = 13 := by
  have h := C1_flattenBuffers_concat_offsets docA 1 (by decide)
  refine ⟨h.1, ?_, (h.2.2.2.2.2 0 (by decide)).1, ?_⟩
  · rw [h.2.1]; rfl
  · rw [(h.2.2.2.2.2 0 (by decide)).2 0 2 (by decide) (by decide)]; rfl

/-- C8 (amended): `flatten_buffers` freshly clones the buffer, view, accessor,
    image, texture, material, mesh, node and scene arrays and redirects the
    rewritten reference kinds into the clone, so none of those references
    addresses the source document; but the samplers array is NOT cloned (it is
    inherited through the `*resultAsset = *sourceAsset` struct copy) and each
    texture's `sampler` reference is copied untouched, so samplers stay shared
    with the source document. -/
theorem C8_flattenBuffers_clone_amended (src : Document) (t : Nat)
    (ht : t ∉ docArenas src) :
    ((flattenBuffers src t).buffersArena = t ∧
     (flattenBuffers src t).viewsArena = t ∧
     (flattenBuffers src t).accessorsArena = t ∧
     (flattenBuffers src t).imagesArena = t ∧
     (flattenBuffers src t).texturesArena = t ∧
     (flattenBuffers src t).materialsArena = t ∧
     (flattenBuffers src t).meshesArena = t ∧
     (flattenBuffers src t).nodesArena = t ∧
     (flattenBuffers src t).scenesArena = t) ∧
    ((flattenBuffers src t).samplersArena = src.samplersArena ∧
     (flattenBuffers src t).samplers = src.samplers) ∧
    (∀ i : Nat, ((flattenBuffers src t).textures[i]?).map Texture.sampler
        = (src.textures[i]?).map Texture.sampler) ∧
    ∀ a ∈ docArenas src,
      (∀ v ∈ (flattenBuffers src t).bufferViews, targetsArena v.buffer a = false) ∧
      (∀ acc ∈ (flattenBuffers src t).accessors, targetsArena acc.bufferView a = false) ∧
      (∀ im ∈ (flattenBuffers src t).images, targetsArena im.bufferView a = false) ∧
      (∀ tx ∈ (flattenBuffers src t).textures, targetsArena tx.image a = false) ∧
      (∀ nd ∈ (flattenBuffers src t).nodes, targetsArena nd.mesh a = false) ∧
      (∀ s ∈ (flattenBuffers src t).scenes, ∀ p ∈ s.nodes, targetsArena p a = false) ∧
      (∀ m ∈ (flattenBuffers src t).materials,
        targetsArena m.baseColorTexture a = false ∧
        targetsArena m.metallicRoughnessTexture a = false ∧
        targetsArena m.diffuseTexture a = false ∧
        targetsArena m.specularGlossinessTexture a = false ∧
        targetsArena m.normalTexture a = false ∧
        targetsArena m.occlusionTexture a = false ∧
        targetsArena m.emissiveTexture a = false) ∧
      (∀ ms ∈ (flattenBuffers src t).meshes, ∀ pr ∈ ms.primitives,
        targetsArena pr.material a = false ∧
        targetsArena pr.indices a = false ∧
        ∀ ab ∈ pr.attributes, targetsArena ab.data a = false) ∧
      targetsArena (flattenBuffers src t).scene a = false := by
  refine ⟨⟨rfl, rfl, rfl, rfl, rfl, rfl, rfl, rfl, rfl⟩, ⟨rfl, rfl⟩, ?_, ?_⟩
  · intro i
    have htx : (flattenBuffers src t).textures
        = src.textures.map (fun tx => { tx with image := remapU t tx.image }) := rfl
    rw [htx, List.getElem?_map]
    cases src.textures[i]? <;> rfl
  · intro a ha
    have hat : a ≠ t := fun he => ht (he ▸ ha)
    refine ⟨?_, ?_, ?_, ?_, ?_, ?_, ?_, ?_, ?_⟩
    · intro v hv
      rcases List.mem_map.1 hv with ⟨w, _, rfl⟩
      simp only [targetsArena, beq_eq_false_iff_ne, ne_eq]
      exact fun he => hat he.symm
    · intro acc hacc
      rcases List.mem_map.1 hacc with ⟨b, _, rfl⟩
      exact targetsArena_remapU t a hat _
    · intro im him
      rcases List.mem_map.1 him with ⟨b, _, rfl⟩
      exact targetsArena_remapC t a hat _
    · intro tx htx
      rcases List.mem_map.1 htx with ⟨b, _, rfl⟩
      exact targetsArena_remapU t a hat _
    · intro nd hnd
      rcases List.mem_map.1 hnd with ⟨b, _, rfl⟩
      exact targetsArena_remapC t a hat _
    · intro s hs p hp
      rcases List.mem_map.1 hs with ⟨b, _, rfl⟩
      rcases List.mem_map.1 hp with ⟨q, _, rfl⟩
      exact targetsArena_remapU t a hat _
    · intro m hm
      rcases List.mem_map.1 hm with ⟨b, _, rfl⟩
      exact ⟨targetsArena_remapC t a hat _, targetsArena_remapC t a hat _,
             targetsArena_remapC t a hat _, targetsArena_remapC t a hat _,
             targetsArena_remapC t a hat _, targetsArena_remapC t a hat _,
             targetsArena_remapC t a hat _⟩
    · intro ms hms pr hpr
      rcases List.mem_map.1 hms with ⟨b, _, rfl⟩
      rcases List.mem_map.1 hpr with ⟨q, _, rfl⟩
      refine ⟨targetsArena_remapU t a hat _, targetsArena_remapU t a hat _, ?_⟩
      intro ab hab
      rcases List.mem_map.1 hab with ⟨c, _, rfl⟩
      exact targetsArena_remapU t a hat _
    · exact targetsArena_remapU t a hat _

/-- Document with one sampler referenced by one texture, used to exhibit the
    sampler sharing of `flattenBuffers`. -/
def docB : Document :=
  { samplersArena := 0, samplers := [{}],
    texturesArena := 0, textures := [ { image := Ptr.mk 0 0, sampler := Ptr.mk 0 0 } ],
    imagesArena := 0, images := [{}] }

/-- C8 counterexample: with the fresh arena tag 1 (not an arena of `docB`),
    the clone's texture still references the sampler record of the SOURCE
    document's sampler array (arena 0), and the clone's samplers array is the
    source's allocation — so a pointer held by the returned document addresses
    a record of the input document, refuting the claim as stated. -/
theorem C8_flattenBuffers_clone_counterexample :
    (1 : Nat) ∉ docArenas docB ∧
    ((flattenBuffers docB 1).textures.getD 0 default).sampler = Ptr.mk docB.samplersArena 0 ∧
    targetsArena ((flattenBuffers docB 1).textures.getD 0 default).sampler docB.samplersArena
      = true ∧
    (flattenBuffers docB 1).samplersArena = docB.samplersArena ∧
    docB.samplersArena ≠ 1 := by decide

theorem C8_flattenBuffers_clone_amended_witness :
    ((flattenBuffers docB 2).samplersArena = docB.samplersArena ∧
     (flattenBuffers docB 2).samplers = docB.samplers) ∧
    ∀ tx ∈ (flattenBuffers docB 2).textures, targetsArena tx.image docB.texturesArena = false := by
  have h := C8_flattenBuffers_clone_amended docB 2 (by decide)
  exact ⟨h.2.1, (h.2.2.2 docB.texturesArena (by decide)).2.2.2.1⟩

/-- C10 (amended): `flatten_buffers` preserves nullness for image buffer-view
    references, material texture slots AND node mesh references (all three are
    rewritten behind null guards); every primitive's `material` and `indices`
    reference is rewritten by unguarded pointer arithmetic, so a null input
    reference becomes a dangling pointer that resolves neither to null nor to
    any index of the output's material/accessor arrays — hence the output-wide
    resolution guarantee needs every input primitive to carry a non-null
    material and a non-null indices accessor. -/
theorem C10_flattenBuffers_null_guards_amended (src : Document) (t : Nat) :
    (∀ i, i < src.images.length →
      (((src.images.getD i default).bufferView = Ptr.null) ↔
        (((flattenBuffers src t).images.getD i default).bufferView = Ptr.null))) ∧
    (∀ i, i < src.nodes.length →
      (((src.nodes.getD i default).mesh = Ptr.null) ↔
        (((flattenBuffers src t).nodes.getD i default).mesh = Ptr.null))) ∧
    (∀ i, i < src.materials.length →
      ((((src.materials.getD i default).baseColorTexture = Ptr.null) ↔
        (((flattenBuffers src t).materials.getD i default).baseColorTexture = Ptr.null)) ∧
       (((src.materials.getD i default).normalTexture = Ptr.null) ↔
        (((flattenBuffers src t).materials.getD i default).normalTexture = Ptr.null)) ∧
       (((src.materials.getD i default).emissiveTexture = Ptr.null) ↔
        (((flattenBuffers src t).materials.getD i default).emissiveTexture = Ptr.null)))) ∧
    (∀ mi pi, mi < src.meshes.length →
      pi < (src.meshes.getD mi default).primitives.length →
      (((src.meshes.getD mi default).primitives.getD pi default).material = Ptr.null →
        (((flattenBuffers src t).meshes.getD mi default).primitives.getD pi default).material
            = Ptr.dangling ∧
        ∀ j, (((flattenBuffers src t).meshes.getD mi default).primitives.getD pi
            default).material ≠ Ptr.mk (flattenBuffers src t).materialsArena j) ∧
      (((src.meshes.getD mi default).primitives.getD pi default).indices = Ptr.null →
        (((flattenBuffers src t).meshes.getD mi default).primitives.getD pi default).indices
            = Ptr.dangling ∧
        ∀ j, (((flattenBuffers src t).meshes.getD mi default).primitives.getD pi
            default).indices ≠ Ptr.mk (flattenBuffers src t).accessorsArena j)) := by
  have him : (flattenBuffers src t).images
      = src.images.map (fun im => { im with bufferView := remapC t im.bufferView }) := rfl
  have hnd : (flattenBuffers src t).nodes
      = src.nodes.map (fun nd => { nd with mesh := remapC t nd.mesh }) := rfl
  have hmt : (flattenBuffers src t).materials = src.materials.map (remapMaterial t) := rfl
  have hms : (flattenBuffers src t).meshes
      = src.meshes.map (fun ms =>
          { ms with primitives := ms.primitives.map fun p =>
              { p with material := remapU t p.material,
                       indices := remapU t p.indices,
                       attributes := p.attributes.map fun a =>
                         { a with data := remapU t a.data } } }) := rfl
  refine ⟨?_, ?_, ?_, ?_⟩
  · intro i hi
    rw [him, getD_map_of_lt _ _ _ _ default hi]
    exact (remapC_null_iff t _).symm
  · intro i hi
    rw [hnd, getD_map_of_lt _ _ _ _ default hi]
    exact (remapC_null_iff t _).symm
  · intro i hi
    rw [hmt, getD_map_of_lt _ _ _ _ default hi]
    exact ⟨(remapC_null_iff t _).symm, (remapC_null_iff t _).symm,
           (remapC_null_iff t _).symm⟩
  · intro mi pi hmi hpi
    rw [hms, getD_map_of_lt _ _ _ _ default hmi]
    have hp := getD_map_of_lt (fun p : Primitive =>
        { p with material := remapU t p.material,
                 indices := remapU t p.indices,
                 attributes := p.attributes.map fun a : Attrib =>
                   { a with data := remapU t a.data } })
      (src.meshes.getD mi default).primitives pi default default hpi
    constructor
    · intro hnull
      rw [hp]
      constructor
      · show remapU t ((src.meshes.getD mi default).primitives.getD pi default).material
            = Ptr.dangling
        rw [hnull]; rfl
      · intro j
        show remapU t ((src.meshes.getD mi default).primitives.getD pi default).material ≠ _
        rw [hnull]
        exact fun hc => Ptr.noConfusion hc
    · intro hnull
      rw [hp]
      constructor
      · show remapU t ((src.meshes.getD mi default).primitives.getD pi default).indices
            = Ptr.dangling
        rw [hnull]; rfl
      · intro j
        show remapU t ((src.meshes.getD mi default).primitives.getD pi default).indices ≠ _
        rw [hnull]
        exact fun hc => Ptr.noConfusion hc

/-- Document with a mesh-less node and a primitive with null material and null
    indices, used to refute the "only" part of the nullness claim. -/
def docC : Document :=
  { nodesArena := 0, nodes := [ { mesh := Ptr.null } ],
    meshesArena := 0,
    meshes := [ { primitives := [ { material := Ptr.null, indices := Ptr.null } ] } ] }

/-- C10 counterexample: the claim allows nullness preservation ONLY for image
    buffer-view references and material texture slots, but `flattenBuffers`
    also preserves the nullness of a node's mesh reference (the clone loop
    guards `node.mesh`), while the same call maps the primitive's null
    material to a dangling pointer. -/
theorem C10_flattenBuffers_null_guards_counterexample :
    (docC.nodes.getD 0 default).mesh = Ptr.null ∧
    ((flattenBuffers docC 1).nodes.getD 0 default).mesh = Ptr.null ∧
    (((flattenBuffers docC 1).meshes.getD 0 default).primitives.getD 0 default).material
      = Ptr.dangling := by decide

theorem C10_flattenBuffers_null_guards_amended_witness :
    ((docC.nodes.getD 0 default).mesh = Ptr.null ↔
      ((flattenBuffers docC 1).nodes.getD 0 default).mesh = Ptr.null) ∧
    (((flattenBuffers docC 1).meshes.getD 0 default).primitives.getD 0 default).material
      = Ptr.dangling := by
  have h := C10_flattenBuffers_null_guards_amended docC 1
  exact ⟨h.2.1 0 (by decide),
         ((h.2.2.2 0 0 (by decide) (by decide)).1 (by decide)).1⟩

/-! Primitive flattening (`Pipeline::flattenPrims` and `Pipeline::bakeTransform`). -/

/-- Modelled from the spec: the cgltf typed-read helpers
    `cgltf_accessor_read_float` (read element `k` of an accessor as `w` floats,
    converting the component type) and `cgltf_accessor_read_index` (read
    element `k` as an unsigned index) belong to the external parser library
    (spec section 6.1 and section 9, "read as float" / "read as index"); they are kept
    as oracle functions over the source document. -/
structure ReadOracle where
  readFloat : Document → Accessor → Nat → Nat → List ℚ
  readIndex : Document → Accessor → Nat → Nat

/-- Modelled from the spec: `cgltf_node_transform_world` (spec section 4.2 — the
    world matrix `M` as the product of ancestor local transforms) and the
    filament math helper `transpose(inverse(upperLeft(M)))` are external; the
    oracle returns, per node index, the world matrix and the normal matrix the
    C code computes from it. -/
structure TransformOracle where
  world : Nat → Mat4q
  normalM : Nat → Mat3q

instance : Inhabited ReadOracle :=
  ⟨{ readFloat := fun _ _ _ w => List.replicate w 0, readIndex := fun _ _ _ => 0 }⟩

instance : Inhabited TransformOracle :=
  ⟨{ world := fun _ => idMat4, normalM := fun _ => idMat3 }⟩

/-- Dereference an accessor pointer within a document.  Dereferencing a null
    or dangling pointer, or an out-of-range index, is undefined behaviour in
    the C code; the model yields the zero accessor. -/
def derefAcc (d : Document) (p : Ptr) : Accessor :=
  match p with
  | Ptr.mk _ i => d.accessors.getD i default
  | _ => default

/-- The per-attribute eligibility check of `filterPrim`:
    `!attr.data || !attr.data->count || attr.data->is_sparse` culls the
    primitive.  (A dangling or out-of-range accessor pointer is undefined
    behaviour in C; the model culls.) -/
def attrAccOk (d : Document) (a : Attrib) : Bool :=
  match a.data with
  | Ptr.mk _ i =>
      match d.accessors[i]? with
      | some acc => !(acc.count == 0) && !acc.isSparse
      | none => false
  | _ => false

/-- The indices eligibility check of `filterPrim`:
    `!prim.indices || prim.indices->is_sparse` culls the primitive. -/
def indicesOk (d : Document) (p : Primitive) : Bool :=
  match p.indices with
  | Ptr.mk _ i =>
      match d.accessors[i]? with
      | some acc => !acc.isSparse
      | none => false
  | _ => false

/-- The data (non-topology) part of primitive eligibility. -/
def primDataOk (d : Document) (p : Primitive) : Bool :=
  p.attributes.all (attrAccOk d) && indicesOk d p

/-- `Pipeline::filterPrim`: true if the primitive should be baked, false if it
    is culled. -/
def filterPrim (flags : Nat) (d : Document) (p : Primitive) : Bool :=
  let filterTriangles := flags &&& FILTER_TRIANGLES != 0
  if filterTriangles && !(p.kind == PrimKind.triangles) then false
  else primDataOk d p

/-- Mesh index referenced by node `i`, when the node has a mesh.  The C loop
    is `if (node.mesh)`; a dangling mesh pointer would be dereferenced as
    garbage (undefined behaviour), modelled as no mesh. -/
def nodeMeshIdx? (d : Document) (i : Nat) : Option Nat :=
  match (d.nodes.getD i default).mesh with
  | Ptr.mk _ mi => some mi
  | _ => none

/-- A primitive occurrence in the `flattenPrims` traversal: node `nodeIdx`
    references mesh `meshIdx` whose primitive list has entry `primIdx`. -/
structure PrimSite where
  nodeIdx : Nat
  meshIdx : Nat
  primIdx : Nat
deriving DecidableEq, Repr

instance : Inhabited PrimSite := ⟨⟨0, 0, 0⟩⟩

/-- The primitive at a traversal site. -/
def sitePrim (d : Document) (s : PrimSite) : Primitive :=
  (d.meshes.getD s.meshIdx default).primitives.getD s.primIdx default

/-- The `flattenPrims` traversal: nodes in array order, primitives of each
    node's mesh in order. -/
def primSites (d : Document) : List PrimSite :=
  (List.range d.nodes.length).flatMap fun i =>
    match nodeMeshIdx? d i with
    | none => []
    | some mi =>
        (List.range (d.meshes.getD mi default).primitives.length).map fun j =>
          ⟨i, mi, j⟩

/-- The sites that survive `filterPrim` — exactly the primitives baked. -/
def eligSites (flags : Nat) (d : Document) : List PrimSite :=
  (primSites d).filter fun s => filterPrim flags d (sitePrim d s)

/-- Last attribute of a given semantic on a primitive; the bake loop keeps
    overwriting `sourcePositions` / `sourceNormals` / `sourceTangents`, so the
    last one wins. -/
def lastAttrOfKind (p : Primitive) (k : AttrKind) : Option Attrib :=
  (p.attributes.filter fun a => a.kind == k).getLast?

/-- First three floats of a read, as a `float3`. -/
def vec3OfFloats (l : List ℚ) : Vec3q :=
  { x := l.getD 0 0, y := l.getD 1 0, z := l.getD 2 0 }

/-- First four floats of a read, as a `float4`. -/
def vec4OfFloats (l : List ℚ) : Vec4q :=
  { x := l.getD 0 0, y := l.getD 1 0, z := l.getD 2 0, w := l.getD 3 0 }

/-- The position loop of `bakeTransform`: transform each point by the world
    matrix while folding the running bounding box. -/
def bakeLoop (m : Mat4q) : List Vec3q → Vec3q → Vec3q → List Vec3q × Vec3q × Vec3q
  | [], mn, mx => ([], mn, mx)
  | v :: vs, mn, mx =>
      let pt := applyMat4 m v
      let r := bakeLoop m vs (vmin3 mn pt) (vmax3 mx pt)
      (pt :: r.1, r.2)

theorem bakeLoop_fst (m : Mat4q) (l : List Vec3q) (mn mx : Vec3q) :
    (bakeLoop m l mn mx).1 = l.map (applyMat4 m) := by
  induction l generalizing mn mx with
  | nil => rfl
  | cons hd tl ih => simp [bakeLoop, ih]

theorem bakeLoop_min (m : Mat4q) (l : List Vec3q) (mn mx : Vec3q) :
    (bakeLoop m l mn mx).2.1 = (l.map (applyMat4 m)).foldl vmin3 mn := by
  induction l generalizing mn mx with
  | nil => rfl
  | cons hd tl ih => simp [bakeLoop, ih]

theorem bakeLoop_max (m : Mat4q) (l : List Vec3q) (mn mx : Vec3q) :
    (bakeLoop m l mn mx).2.2 = (l.map (applyMat4 m)).foldl vmax3 mx := by
  induction l generalizing mn mx with
  | nil => rfl
  | cons hd tl ih => simp [bakeLoop, ih]

/-- Baked payload of one eligible primitive (the `BakedPrim` bookkeeping
    record plus the streams `bakeTransform` writes). -/
structure BakedData where
  site : PrimSite := default
  prim : Primitive := default
  nodeName : Option String := none
  meshName : Option String := none
  posCount : Nat := 0
  positions : List Vec3q := []
  bmin : Vec3q := {}
  bmax : Vec3q := {}
  hasN : Bool := false
  nrmCount : Nat := 0
  normals : List Vec3q := []
  hasT : Bool := false
  tanCount : Nat := 0
  tangents : List Vec4q := []
  idxCount : Nat := 0
  indexStream : List Nat := []
deriving DecidableEq, Repr

instance : Inhabited BakedData := ⟨{}⟩

/-- `bakeTransform` for the primitive at one traversal site. -/
def bakeSite (ro : ReadOracle) (tr : TransformOracle) (d : Document)
    (s : PrimSite) : BakedData :=
  let p := sitePrim d s
  let m := tr.world s.nodeIdx
  let nm := tr.normalM s.nodeIdx
  let posAcc :=
    match lastAttrOfKind p AttrKind.position with
    | some a => derefAcc d a.data
    | none => default
  let raw := (List.range posAcc.count).map fun k => vec3OfFloats (ro.readFloat d posAcc k 3)
  let bk := bakeLoop m raw vecFltMax vecFltLowest
  let nrm :=
    match lastAttrOfKind p AttrKind.normal with
    | some a =>
        let acc := derefAcc d a.data
        (true, acc.count,
          ((List.range acc.count).map fun k =>
            vec3OfFloats (ro.readFloat d acc k 3)).map (applyMat3 nm))
    | none => (false, 0, [])
  let tan :=
    match lastAttrOfKind p AttrKind.tangent with
    | some a =>
        let acc := derefAcc d a.data
        (true, acc.count,
          ((List.range acc.count).map fun k =>
            vec4OfFloats (ro.readFloat d acc k 4)).map fun v : Vec4q =>
              let u := applyMat3 nm { x := v.x, y := v.y, z := v.z }
              ({ x := u.x, y := u.y, z := u.z, w := v.w } : Vec4q))
    | none => (false, 0, [])
  let idxAcc := derefAcc d p.indices
  { site := s, prim := p,
    nodeName := (d.nodes.getD s.nodeIdx default).name,
    meshName := (d.meshes.getD s.meshIdx default).name,
    posCount := posAcc.count,
    positions := bk.1, bmin := bk.2.1, bmax := bk.2.2,
    hasN := nrm.1, nrmCount := nrm.2.1, normals := nrm.2.2,
    hasT := tan.1, tanCount := tan.2.1, tangents := tan.2.2,
    idxCount := idxAcc.count,
    indexStream := (List.range idxAcc.count).map (ro.readIndex d idxAcc) }

/-- All baked primitives, in traversal order. -/
def bakedList (ro : ReadOracle) (tr : TransformOracle) (flags : Nat)
    (d : Document) : List BakedData :=
  (eligSites flags d).map (bakeSite ro tr d)

/-- Sum of `attr.data->count` over the attributes of kind `k` of a primitive —
    `flattenPrims` accumulates its vertex totals per attribute, not per
    primitive. -/
def sumKindCounts (d : Document) (p : Primitive) (k : AttrKind) : Nat :=
  ((p.attributes.filter fun a => a.kind == k).map fun a => (derefAcc d a.data).count).sum

/-- Number of attributes of kind `k` on a primitive (`numPrimsWithNormals`
    and `numPrimsWithTangents` count attributes, not primitives). -/
def numAttrsOfKind (p : Primitive) (k : AttrKind) : Nat :=
  (p.attributes.filter fun a => a.kind == k).length

/-- Accessor for a primitive's rewritten u32 index stream
    (`indicesAccessors[k]`, global accessor index `k`). -/
def idxAccAt (t : Nat) (baked : List BakedData) (k : Nat) : Accessor :=
  { componentType := ComponentType.r32u, kind := ElemKind.scalar,
    count := (baked.getD k default).idxCount, stride := 4,
    bufferView := Ptr.mk t k }

/-- Accessor for a primitive's baked fp32 positions
    (`positionsAccessors[k]`, global accessor index `n + k`), carrying the
    recomputed bounding box. -/
def posAccAt (t n : Nat) (baked : List BakedData) (k : Nat) : Accessor :=
  let b := baked.getD k default
  { componentType := ComponentType.r32f, kind := ElemKind.vec3,
    count := b.posCount, stride := 12,
    bufferView := Ptr.mk t (n + k),
    hasMin := true, minv := [b.bmin.x, b.bmin.y, b.bmin.z],
    hasMax := true, maxv := [b.bmax.x, b.bmax.y, b.bmax.z] }

/-- Accessor for the `r`-th primitive-with-normals
    (global accessor index `2n + r`). -/
def nrmAccAt (t n : Nat) (nrmBaked : List BakedData) (r : Nat) : Accessor :=
  { componentType := ComponentType.r32f, kind := ElemKind.vec3,
    count := (nrmBaked.getD r default).nrmCount, stride := 12,
    bufferView := Ptr.mk t (2 * n + r) }

/-- Accessor for the `r`-th primitive-with-tangents
    (global accessor index `2n + nbA + r`). -/
def tanAccAt (t n nbA : Nat) (tanBaked : List BakedData) (r : Nat) : Accessor :=
  { componentType := ComponentType.r32f, kind := ElemKind.vec4,
    count := (tanBaked.getD r default).tanCount, stride := 16,
    bufferView := Ptr.mk t (2 * n + nbA + r) }

/-- Index buffer view of output primitive `k` (offsets run from
    `vertexDataSize`). -/
def idxViewAt (t vds : Nat) (baked : List BakedData) (k : Nat) : BufferView :=
  { buffer := Ptr.mk t 0,
    offset := vds + 4 * ((baked.take k).map (·.idxCount)).sum,
    size := 4 * (baked.getD k default).idxCount }

/-- Position buffer view of output primitive `k` (offsets run from 0). -/
def posViewAt (t : Nat) (baked : List BakedData) (k : Nat) : BufferView :=
  { buffer := Ptr.mk t 0,
    offset := 12 * ((baked.take k).map (·.posCount)).sum,
    size := 12 * (baked.getD k default).posCount }

/-- Normal buffer view of the `r`-th primitive-with-normals (offsets run from
    `positionsDataSize`). -/
def nrmViewAt (t pds : Nat) (nrmBaked : List BakedData) (r : Nat) : BufferView :=
  { buffer := Ptr.mk t 0,
    offset := pds + 12 * ((nrmBaked.take r).map (·.nrmCount)).sum,
    size := 12 * (nrmBaked.getD r default).nrmCount }

/-- Tangent buffer view of the `r`-th primitive-with-tangents (offsets run
    from `positionsDataSize + normalsDataSize`). -/
def tanViewAt (t ptds : Nat) (tanBaked : List BakedData) (r : Nat) : BufferView :=
  { buffer := Ptr.mk t 0,
    offset := ptds + 16 * ((tanBaked.take r).map (·.tanCount)).sum,
    size := 16 * (tanBaked.getD r default).tanCount }

/-- Output primitive `k` of `flattenPrims`: baked POSITION (plus NORMAL and
    TANGENT when present), pass-through attributes redirected through the
    shifted copies of the source accessors, indices pointing at the baked u32
    accessor, material carried over unrewritten, topology set to triangles.
    (cgltf stores a separate `attributes_count`, which the source sets to the
    SOURCE primitive's attribute count; it equals the length of the written
    list modelled here whenever the source primitive has exactly one POSITION
    and at most one NORMAL/TANGENT attribute, the only layouts valid glTF
    produces.) -/
def outPrimAt (t n nbA base : Nat) (baked : List BakedData) (k : Nat) : Primitive :=
  let b := baked.getD k default
  let rankN := ((baked.take k).filter (·.hasN)).length
  let rankT := ((baked.take k).filter (·.hasT)).length
  let posA : Attrib :=
    { name := "POSITION", kind := AttrKind.position, index := 0, data := Ptr.mk t (n + k) }
  let nrmA : List Attrib :=
    if b.hasN then
      [{ name := "NORMAL", kind := AttrKind.normal, index := 0,
         data := Ptr.mk t (2 * n + rankN) }]
    else []
  let tanA : List Attrib :=
    if b.hasT then
      [{ name := "TANGENT", kind := AttrKind.tangent, index := 0,
         data := Ptr.mk t (2 * n + nbA + rankT) }]
    else []
  let passA := (b.prim.attributes.filter fun a =>
      !(a.kind == AttrKind.position) && !(a.kind == AttrKind.normal) &&
      !(a.kind == AttrKind.tangent)).map fun a =>
    { a with data := remapShiftU t base a.data }
  { kind := PrimKind.triangles,
    indices := Ptr.mk t k,
    material := b.prim.material,
    attributes := [posA] ++ nrmA ++ tanA ++ passA }

/-- Serialization of a float3 into the baked buffer. -/
def cellsOfVec3 (v : Vec3q) : List Cell := [Cell.f32 v.x, Cell.f32 v.y, Cell.f32 v.z]

/-- Serialization of a float4 into the baked buffer. -/
def cellsOfVec4 (v : Vec4q) : List Cell :=
  [Cell.f32 v.x, Cell.f32 v.y, Cell.f32 v.z, Cell.f32 v.w]

/-- Payload of the fresh baked buffer: all positions, then all normals, then
    all tangents, then all u32 indices, each region padded to its allocated
    size (the allocation counts every position/normal/tangent attribute, the
    writes use the last one per primitive, so the regions may have unwritten
    zeroed space). -/
def primsBufferData (baked : List BakedData) (aP aN aT : Nat) : List Cell :=
  let pos := (baked.map fun b => b.positions.flatMap cellsOfVec3).flatten
  let nrm := (baked.map fun b => b.normals.flatMap cellsOfVec3).flatten
  let tan := (baked.map fun b => b.tangents.flatMap cellsOfVec4).flatten
  let idx := (baked.map fun b => b.indexStream.map Cell.u32).flatten
  (pos ++ List.replicate (3 * aP - pos.length) (Cell.f32 0)) ++
  (nrm ++ List.replicate (3 * aN - nrm.length) (Cell.f32 0)) ++
  (tan ++ List.replicate (4 * aT - tan.length) (Cell.f32 0)) ++ idx

/-- `Pipeline::flattenPrims`, past its single-buffer precondition: bake every
    eligible primitive into one node + one mesh + one primitive, lay out the
    fresh buffer, keep the source buffer as buffer 1 with the source views and
    accessors shifted behind the baked ones, clone images, share textures /
    materials / samplers with the source, rebuild a single default scene, and
    stamp `asset.generator` with the pipeline identifier. -/
def flattenPrimsCore (ro : ReadOracle) (tr : TransformOracle) (flags : Nat)
    (src : Document) (t : Nat) : Document :=
  let baked := bakedList ro tr flags src
  let n := baked.length
  let nbA := (baked.map fun b => numAttrsOfKind b.prim AttrKind.normal).sum
  let tbA := (baked.map fun b => numAttrsOfKind b.prim AttrKind.tangent).sum
  let aP := (baked.map fun b => sumKindCounts src b.prim AttrKind.position).sum
  let aN := (baked.map fun b => sumKindCounts src b.prim AttrKind.normal).sum
  let aT := (baked.map fun b => sumKindCounts src b.prim AttrKind.tangent).sum
  let aI := (baked.map (·.idxCount)).sum
  let pds := 12 * aP
  let nds := 12 * aN
  let tds := 16 * aT
  let vds := pds + nds + tds
  let ids := 4 * aI
  let base := n + (n + nbA + tbA)
  let nrmBaked := baked.filter (·.hasN)
  let tanBaked := baked.filter (·.hasT)
  let accessors :=
    ((List.range n).map (idxAccAt t baked)) ++
    ((List.range n).map (posAccAt t n baked)) ++
    (((List.range nrmBaked.length).map (nrmAccAt t n nrmBaked)) ++
      List.replicate (nbA - nrmBaked.length) default) ++
    (((List.range tanBaked.length).map (tanAccAt t n nbA tanBaked)) ++
      List.replicate (tbA - tanBaked.length) default) ++
    (src.accessors.map fun a => { a with bufferView := remapShiftU t base a.bufferView })
  let views :=
    ((List.range n).map (idxViewAt t vds baked)) ++
    ((List.range n).map (posViewAt t baked)) ++
    (((List.range nrmBaked.length).map (nrmViewAt t pds nrmBaked)) ++
      List.replicate (nbA - nrmBaked.length) default) ++
    (((List.range tanBaked.length).map (tanViewAt t (pds + nds) tanBaked)) ++
      List.replicate (tbA - tanBaked.length) default) ++
    (src.bufferViews.map fun v => { v with buffer := Ptr.mk t 1 })
  let meshes := (List.range n).map fun k =>
    ({ name := (baked.getD k default).meshName,
       primitives := [outPrimAt t n nbA base baked k] } : Mesh)
  let nodes := (List.range n).map fun k =>
    ({ name := (baked.getD k default).nodeName, mesh := Ptr.mk t k } : Node)
  let scn : Scene :=
    { name :=
        match src.scene with
        | Ptr.mk _ si => (src.scenes.getD si default).name
        | _ => none,
      nodes := (List.range n).map (Ptr.mk t) }
  let buffers : List Buffer :=
    [ { size := vds + ids, data := some (primsBufferData baked aP aN aT), uri := none },
      src.buffers.getD 0 default ]
  let images := src.images.map fun im =>
    { im with bufferView := remapShiftC t base im.bufferView }
  let textures := src.textures.map fun tx => { tx with image := remapU t tx.image }
  { asset := { src.asset with generator := some GENERATOR_ID },
    buffersArena := t, buffers := buffers,
    viewsArena := t, bufferViews := views,
    accessorsArena := t, accessors := accessors,
    imagesArena := t, images := images,
    texturesArena := src.texturesArena, textures := textures,
    materialsArena := src.materialsArena, materials := src.materials,
    samplersArena := src.samplersArena, samplers := src.samplers,
    meshesArena := t, meshes := meshes,
    nodesArena := t, nodes := nodes,
    scenesArena := t, scenes := [scn],
    scene := Ptr.mk t 0 }

/-- `Pipeline::flattenPrims` with its entry assertions
    (`buffers_count == 1` and loaded buffer data) modelled as rejection. -/
def flattenPrims (ro : ReadOracle) (tr : TransformOracle) (flags : Nat)
    (src : Document) (t : Nat) : Option Document :=
  if src.buffers.length == 1 && !((src.buffers.getD 0 default).data == none) then
    some (flattenPrimsCore ro tr flags src t)
  else none

/-- State of the INPUT document after `flattenPrims` returns.  The result
    shares the source's texture array (`resultAsset->textures =
    sourceAsset->textures`) and the image fix-up loop writes through that
    shared array, so the input document's texture records are modified in
    place. -/
def flattenPrimsSourceAfter (ro : ReadOracle) (tr : TransformOracle)
    (flags : Nat) (src : Document) (t : Nat) : Document :=
  match flattenPrims ro tr flags src t with
  | none => src
  | some r => { src with textures := r.textures }

/-! Helper lemmas about `flattenPrims`. -/

theorem flattenPrims_eq_some {ro : ReadOracle} {tr : TransformOracle}
    {flags : Nat} {src : Document} {t : Nat} {r : Document}
    (h : flattenPrims ro tr flags src t = some r) :
    r = flattenPrimsCore ro tr flags src t := by
  unfold flattenPrims at h
  split at h
  · exact (Option.some.inj h).symm
  · cases h

theorem flattenPrims_isSome (ro : ReadOracle) (tr : TransformOracle)
    (flags : Nat) (src : Document) (t : Nat)
    (hb : src.buffers.length = 1)
    (hd : (src.buffers.getD 0 default).data ≠ none) :
    flattenPrims ro tr flags src t = some (flattenPrimsCore ro tr flags src t) := by
  unfold flattenPrims
  have h1 : (src.buffers.length == 1) = true := by simp [hb]
  have h2 : ((src.buffers.getD 0 default).data == none) = false := by
    simpa using hd
  rw [h1, h2]
  rfl

theorem eligSites_mem_iff (flags : Nat) (d : Document) (s : PrimSite)
    (hs : s ∈ primSites d) :
    s ∈ eligSites flags d ↔ filterPrim flags d (sitePrim d s) = true := by
  unfold eligSites
  rw [List.mem_filter]
  exact ⟨fun h => h.2, fun h => ⟨hs, h⟩⟩

theorem filterPrim_triangles_of_flag (flags : Nat) (d : Document) (p : Primitive)
    (hfl : flags &&& FILTER_TRIANGLES ≠ 0)
    (h : filterPrim flags d p = true) : p.kind = PrimKind.triangles := by
  by_contra hk
  have hb : (flags &&& FILTER_TRIANGLES != 0) = true := by simpa using hfl
  have hkb : (p.kind == PrimKind.triangles) = false := by
    simpa using hk
  unfold filterPrim at h
  rw [hb, hkb] at h
  simp at h

theorem filterPrim_of_no_flag (flags : Nat) (d : Document) (p : Primitive)
    (hfl : flags &&& FILTER_TRIANGLES = 0) :
    filterPrim flags d p = primDataOk d p := by
  unfold filterPrim
  rw [hfl]
  simp

theorem bakedList_getD (ro : ReadOracle) (tr : TransformOracle) (flags : Nat)
    (d : Document) (k : Nat) (hk : k < (eligSites flags d).length) :
    (bakedList ro tr flags d).getD k default
      = bakeSite ro tr d ((eligSites flags d).getD k default) := by
  unfold bakedList
  exact getD_map_of_lt _ _ _ _ default hk

theorem foldl_min_attained (l : List ℚ) (hne : l ≠ [])
    (hb : ∀ v ∈ l, v ≤ fltMaxQ) :
    ∃ v ∈ l, v = l.foldl min fltMaxQ := by
  rcases foldl_min_mem l fltMaxQ with h | h
  · rcases List.exists_mem_of_ne_nil l hne with ⟨v, hv⟩
    refine ⟨v, hv, ?_⟩
    rw [h]
    exact le_antisymm (hb v hv) (h ▸ foldl_min_le l v hv fltMaxQ)
  · exact ⟨l.foldl min fltMaxQ, h, rfl⟩

theorem foldl_max_attained (l : List ℚ) (hne : l ≠ [])
    (hb : ∀ v ∈ l, -fltMaxQ ≤ v) :
    ∃ v ∈ l, v = l.foldl max (-fltMaxQ) := by
  rcases foldl_max_mem l (-fltMaxQ) with h | h
  · rcases List.exists_mem_of_ne_nil l hne with ⟨v, hv⟩
    refine ⟨v, hv, ?_⟩
    rw [h]
    exact le_antisymm (h ▸ le_foldl_max l v hv (-fltMaxQ)) (hb v hv)
  · exact ⟨l.foldl max (-fltMaxQ), h, rfl⟩

/-- `numPrims` of the `flattenPrims` run. -/
def primsN (ro : ReadOracle) (tr : TransformOracle) (flags : Nat) (src : Document) : Nat :=
  (bakedList ro tr flags src).length

/-- `numPrimsWithNormals` (counted per normal attribute, as the source does). -/
def primsNbA (ro : ReadOracle) (tr : TransformOracle) (flags : Nat) (src : Document) : Nat :=
  ((bakedList ro tr flags src).map fun b => numAttrsOfKind b.prim AttrKind.normal).sum

/-- `numPrimsWithTangents` (counted per tangent attribute). -/
def primsTbA (ro : ReadOracle) (tr : TransformOracle) (flags : Nat) (src : Document) : Nat :=
  ((bakedList ro tr flags src).map fun b => numAttrsOfKind b.prim AttrKind.tangent).sum

/-- Index shift applied to the source views/accessors kept in the output
    (`offset = numPrims + numAttributesBaked`). -/
def primsBase (ro : ReadOracle) (tr : TransformOracle) (flags : Nat) (src : Document) : Nat :=
  primsN ro tr flags src +
    (primsN ro tr flags src + primsNbA ro tr flags src + primsTbA ro tr flags src)

/-- Baked primitives that carry a normal stream. -/
def primsNrmBaked (ro : ReadOracle) (tr : TransformOracle) (flags : Nat)
    (src : Document) : List BakedData :=
  (bakedList ro tr flags src).filter (·.hasN)

/-- Baked primitives that carry a tangent stream. -/
def primsTanBaked (ro : ReadOracle) (tr : TransformOracle) (flags : Nat)
    (src : Document) : List BakedData :=
  (bakedList ro tr flags src).filter (·.hasT)

/-- The index-accessor region of the output accessor array. -/
def primsIdxAccs (ro : ReadOracle) (tr : TransformOracle) (flags : Nat)
    (src : Document) (t : Nat) : List Accessor :=
  (List.range (primsN ro tr flags src)).map (idxAccAt t (bakedList ro tr flags src))

/-- The position-accessor region of the output accessor array. -/
def primsPosAccs (ro : ReadOracle) (tr : TransformOracle) (flags : Nat)
    (src : Document) (t : Nat) : List Accessor :=
  (List.range (primsN ro tr flags src)).map
    (posAccAt t (primsN ro tr flags src) (bakedList ro tr flags src))

/-- The normal-accessor region (written entries followed by the zeroed
    over-allocation). -/
def primsNrmAccs (ro : ReadOracle) (tr : TransformOracle) (flags : Nat)
    (src : Document) (t : Nat) : List Accessor :=
  ((List.range (primsNrmBaked ro tr flags src).length).map
    (nrmAccAt t (primsN ro tr flags src) (primsNrmBaked ro tr flags src))) ++
  List.replicate (primsNbA ro tr flags src - (primsNrmBaked ro tr flags src).length) default

/-- The tangent-accessor region. -/
def primsTanAccs (ro : ReadOracle) (tr : TransformOracle) (flags : Nat)
    (src : Document) (t : Nat) : List Accessor :=
  ((List.range (primsTanBaked ro tr flags src).length).map
    (tanAccAt t (primsN ro tr flags src) (primsNbA ro tr flags src)
      (primsTanBaked ro tr flags src))) ++
  List.replicate (primsTbA ro tr flags src - (primsTanBaked ro tr flags src).length) default

/-- The shifted copies of the source accessors. -/
def primsSrcAccs (ro : ReadOracle) (tr : TransformOracle) (flags : Nat)
    (src : Document) (t : Nat) : List Accessor :=
  src.accessors.map fun a =>
    { a with bufferView := remapShiftU t (primsBase ro tr flags src) a.bufferView }

/-- Name of the output default scene (read from the source's default scene). -/
def primsSceneName (src : Document) : Option String :=
  match src.scene with
  | Ptr.mk _ si => (src.scenes.getD si default).name
  | _ => none

theorem flattenPrimsCore_accessors (ro : ReadOracle) (tr : TransformOracle)
    (flags : Nat) (src : Document) (t : Nat) :
    (flattenPrimsCore ro tr flags src t).accessors
      = primsIdxAccs ro tr flags src t ++ primsPosAccs ro tr flags src t ++
        primsNrmAccs ro tr flags src t ++ primsTanAccs ro tr flags src t ++
        primsSrcAccs ro tr flags src t := rfl

theorem flattenPrimsCore_meshes (ro : ReadOracle) (tr : TransformOracle)
    (flags : Nat) (src : Document) (t : Nat) :
    (flattenPrimsCore ro tr flags src t).meshes
      = (List.range (primsN ro tr flags src)).map fun k =>
          ({ name := ((bakedList ro tr flags src).getD k default).meshName,
             primitives := [outPrimAt t (primsN ro tr flags src)
               (primsNbA ro tr flags src) (primsBase ro tr flags src)
               (bakedList ro tr flags src) k] } : Mesh) := rfl

theorem flattenPrimsCore_nodes (ro : ReadOracle) (tr : TransformOracle)
    (flags : Nat) (src : Document) (t : Nat) :
    (flattenPrimsCore ro tr flags src t).nodes
      = (List.range (primsN ro tr flags src)).map fun k =>
          ({ name := ((bakedList ro tr flags src).getD k default).nodeName,
             mesh := Ptr.mk t k } : Node) := rfl

theorem flattenPrimsCore_scenes (ro : ReadOracle) (tr : TransformOracle)
    (flags : Nat) (src : Document) (t : Nat) :
    (flattenPrimsCore ro tr flags src t).scenes
      = [{ name := primsSceneName src,
           nodes := (List.range (primsN ro tr flags src)).map (Ptr.mk t) }] := rfl

theorem flattenPrimsCore_scene (ro : ReadOracle) (tr : TransformOracle)
    (flags : Nat) (src : Document) (t : Nat) :
    (flattenPrimsCore ro tr flags src t).scene = Ptr.mk t 0 := rfl

theorem flattenPrimsCore_generator (ro : ReadOracle) (tr : TransformOracle)
    (flags : Nat) (src : Document) (t : Nat) :
    (flattenPrimsCore ro tr flags src t).asset.generator = some GENERATOR_ID := rfl

theorem flattenPrimsCore_textures (ro : ReadOracle) (tr : TransformOracle)
    (flags : Nat) (src : Document) (t : Nat) :
    (flattenPrimsCore ro tr flags src t).textures
      = src.textures.map fun tx => { tx with image := remapU t tx.image } := rfl

theorem primsIdxAccs_length (ro : ReadOracle) (tr : TransformOracle)
    (flags : Nat) (src : Document) (t : Nat) :
    (primsIdxAccs ro tr flags src t).length = primsN ro tr flags src := by
  simp [primsIdxAccs]

theorem primsPosAccs_length (ro : ReadOracle) (tr : TransformOracle)
    (flags : Nat) (src : Document) (t : Nat) :
    (primsPosAccs ro tr flags src t).length = primsN ro tr flags src := by
  simp [primsPosAccs]

/-- Global accessor `k` (for `k < numPrims`) is the baked index accessor of
    output primitive `k`. -/
theorem flattenPrimsCore_accessors_idx (ro : ReadOracle) (tr : TransformOracle)
    (flags : Nat) (src : Document) (t : Nat) (k : Nat)
    (hk : k < primsN ro tr flags src) :
    (flattenPrimsCore ro tr flags src t).accessors.getD k default
      = idxAccAt t (bakedList ro tr flags src) k := by
  rw [flattenPrimsCore_accessors]
  rw [getD_append_left _ _ _ _ (by
    rw [List.length_append, List.length_append, List.length_append,
      primsIdxAccs_length]
    omega)]
  rw [getD_append_left _ _ _ _ (by
    rw [List.length_append, List.length_append, primsIdxAccs_length]
    omega)]
  rw [getD_append_left _ _ _ _ (by
    rw [List.length_append, primsIdxAccs_length]
    omega)]
  rw [getD_append_left _ _ _ _ (by rw [primsIdxAccs_length]; omega)]
  exact getD_map_range _ _ _ _ hk

/-- Global accessor `numPrims + k` (for `k < numPrims`) is the baked position
    accessor of output primitive `k`. -/
theorem flattenPrimsCore_accessors_pos (ro : ReadOracle) (tr : TransformOracle)
    (flags : Nat) (src : Document) (t : Nat) (k : Nat)
    (hk : k < primsN ro tr flags src) :
    (flattenPrimsCore ro tr flags src t).accessors.getD
        (primsN ro tr flags src + k) default
      = posAccAt t (primsN ro tr flags src) (bakedList ro tr flags src) k := by
  rw [flattenPrimsCore_accessors]
  rw [getD_append_left _ _ _ _ (by
    rw [List.length_append, List.length_append, List.length_append,
      primsIdxAccs_length, primsPosAccs_length]
    omega)]
  rw [getD_append_left _ _ _ _ (by
    rw [List.length_append, List.length_append, primsIdxAccs_length,
      primsPosAccs_length]
    omega)]
  rw [getD_append_left _ _ _ _ (by
    rw [List.length_append, primsIdxAccs_length, primsPosAccs_length]
    omega)]
  rw [← primsIdxAccs_length ro tr flags src t, getD_append_shift]
  rw [primsIdxAccs_length]
  exact getD_map_range _ _ _ _ hk

/-- C2: for every document accepted by `flatten_prims`, the returned document
    has `meshes_count = nodes_count`, every mesh exactly one primitive, every
    output node without children, parent or local transform and with a mesh,
    exactly one scene that is the default scene and lists the new nodes in the
    source mesh-primitive traversal order (node `k` comes from the `k`-th
    eligible traversal site), and `asset.generator` set to the pipeline
    identifier. -/
theorem C2_flattenPrims_scene_shape (ro : ReadOracle) (tr : TransformOracle)
    (flags : Nat) (src : Document) (t : Nat) (r : Document)
    (h : flattenPrims ro tr flags src t = some r) :
    r.meshes.length = r.nodes.length ∧
    (∀ m ∈ r.meshes, m.primitives.length = 1) ∧
    (∀ nd ∈ r.nodes, nd.children = [] ∧ nd.parent = Ptr.null ∧
      nd.hasTranslation = false ∧ nd.hasRotation = false ∧
      nd.hasScale = false ∧ nd.hasMatrix = false ∧ nd.mesh ≠ Ptr.null) ∧
    r.scenes.length = 1 ∧ r.scene = Ptr.mk t 0 ∧
    (r.scenes.getD 0 default).nodes = (List.range r.nodes.length).map (Ptr.mk t) ∧
    r.nodes.length = (eligSites flags src).length ∧
    (∀ k, k < r.nodes.length →
      (r.nodes.getD k default).mesh = Ptr.mk t k ∧
      (r.nodes.getD k default).name
        = (src.nodes.getD ((eligSites flags src).getD k default).nodeIdx default).name ∧
      (r.meshes.getD k default).name
        = (src.meshes.getD ((eligSites flags src).getD k default).meshIdx default).name) ∧
    r.asset.generator = some GENERATOR_ID := by
  have hr := flattenPrims_eq_some h
  subst hr
  have hlen : (flattenPrimsCore ro tr flags src t).nodes.length = primsN ro tr flags src := by
    rw [flattenPrimsCore_nodes]; simp
  refine ⟨?_, ?_, ?_, ?_, ?_, ?_, ?_, ?_, ?_⟩
  · rw [flattenPrimsCore_meshes, flattenPrimsCore_nodes]
    simp
  · intro m hm
    rw [flattenPrimsCore_meshes] at hm
    rcases List.mem_map.1 hm with ⟨k, _, rfl⟩
    rfl
  · intro nd hnd
    rw [flattenPrimsCore_nodes] at hnd
    rcases List.mem_map.1 hnd with ⟨k, _, rfl⟩
    exact ⟨rfl, rfl, rfl, rfl, rfl, rfl, fun hc => Ptr.noConfusion hc⟩
  · rw [flattenPrimsCore_scenes]
    rfl
  · rw [flattenPrimsCore_scene]
  · rw [flattenPrimsCore_scenes, hlen]
    rfl
  · rw [hlen]
    unfold primsN bakedList
    simp
  · intro k hk
    rw [hlen] at hk
    rw [flattenPrimsCore_nodes, flattenPrimsCore_meshes,
      getD_map_range _ _ _ _ hk, getD_map_range _ _ _ _ hk]
    have hb := bakedList_getD ro tr flags src k (by
      have : (eligSites flags src).length = primsN ro tr flags src := by
        unfold primsN bakedList; simp
      omega)
    rw [hb]
    exact ⟨rfl, rfl, rfl⟩
  · rw [flattenPrimsCore_generator]

/-- Read oracle used by the concrete `flattenPrims` witnesses: element `k` of
    any accessor reads as the position `(k, 0, 0)` and index `k`. -/
def roW : ReadOracle :=
  { readFloat := fun _ _ k _ => [(k : ℚ), 0, 0], readIndex := fun _ _ k => k }

/-- Identity transforms for the witnesses. -/
def trW : TransformOracle := default

/-- One-node, one-mesh, one-triangle-primitive document with a 3-element fp32
    position accessor and a 3-element index accessor (spec scenario 1). -/
def docS : Document :=
  { buffersArena := 0,
    buffers := [ { size := 48, data := some [] } ],
    accessorsArena := 0,
    accessors :=
      [ { componentType := ComponentType.r32f, kind := ElemKind.vec3, count := 3,
          stride := 12, bufferView := Ptr.mk 0 0 },
        { componentType := ComponentType.r16u, kind := ElemKind.scalar, count := 3,
          stride := 2, bufferView := Ptr.mk 0 0 } ],
    viewsArena := 0,
    bufferViews := [ { buffer := Ptr.mk 0 0, offset := 0, size := 48 } ],
    meshesArena := 0,
    meshes :=
      [ { name := some "m",
          primitives :=
            [ { kind := PrimKind.triangles, indices := Ptr.mk 0 1, material := Ptr.null,
                attributes :=
                  [ { name := "POSITION", kind := AttrKind.position, index := 0,
                      data := Ptr.mk 0 0 } ] } ] } ],
    nodesArena := 0,
    nodes := [ { name := some "n", mesh := Ptr.mk 0 0 } ],
    scenesArena := 0,
    scenes := [ { name := some "s0", nodes := [Ptr.mk 0 0] } ],
    scene := Ptr.mk 0 0 }

theorem C2_flattenPrims_scene_shape_witness :
    (flattenPrimsCore roW trW 0 docS 1).meshes.length
      = (flattenPrimsCore roW trW 0 docS 1).nodes.length ∧
    (flattenPrimsCore roW trW 0 docS 1).nodes.length = 1 ∧
    (flattenPrimsCore roW trW 0 docS 1).asset.generator = some GENERATOR_ID := by
  have h := C2_flattenPrims_scene_shape roW trW 0 docS 1
    (flattenPrimsCore roW trW 0 docS 1)
    (flattenPrims_isSome roW trW 0 docS 1 (by decide) (by decide))
  refine ⟨h.1, ?_, h.2.2.2.2.2.2.2.2⟩
  have h7 := h.2.2.2.2.2.2.1
  rw [h7]
  decide

/-- C4: given the stage's single-buffer precondition, `flatten_prims` always
    returns a document (ineligible primitives never cause an error); a
    traversed primitive occurrence is emitted exactly when `filterPrim`
    accepts it (topology filter, non-null non-sparse non-empty attribute
    accessors, non-sparse present indices), the number of output primitives is
    the number of eligible occurrences, and output primitive `k` carries the
    data of the `k`-th eligible occurrence (its index accessor has the source
    indices count and its mesh keeps the source mesh name). -/
theorem C4_flattenPrims_eligibility (ro : ReadOracle) (tr : TransformOracle)
    (flags : Nat) (src : Document) (t : Nat)
    (hb : src.buffers.length = 1)
    (hd : (src.buffers.getD 0 default).data ≠ none) :
    ∃ r, flattenPrims ro tr flags src t = some r ∧
      r.meshes.length = (eligSites flags src).length ∧
      (∀ s ∈ primSites src,
        (s ∈ eligSites flags src ↔ filterPrim flags src (sitePrim src s) = true)) ∧
      (∀ k, k < (eligSites flags src).length →
        ((r.meshes.getD k default).primitives.getD 0 default).indices = Ptr.mk t k ∧
        (r.accessors.getD k default).count
          = (derefAcc src (sitePrim src ((eligSites flags src).getD k default)).indices).count ∧
        (r.meshes.getD k default).name
          = (src.meshes.getD ((eligSites flags src).getD k default).meshIdx default).name) := by
  refine ⟨flattenPrimsCore ro tr flags src t,
    flattenPrims_isSome ro tr flags src t hb hd, ?_, ?_, ?_⟩
  · rw [flattenPrimsCore_meshes]
    unfold primsN bakedList
    simp
  · intro s hs
    exact eligSites_mem_iff flags src s hs
  · intro k hk
    have hkn : k < primsN ro tr flags src := by
      unfold primsN bakedList
      simpa using hk
    have hb1 := bakedList_getD ro tr flags src k hk
    refine ⟨?_, ?_, ?_⟩
    · rw [flattenPrimsCore_meshes, getD_map_range _ _ _ _ hkn]
      rfl
    · rw [flattenPrimsCore_accessors_idx ro tr flags src t k hkn]
      unfold idxAccAt
      rw [hb1]
      rfl
    · rw [flattenPrimsCore_meshes, getD_map_range _ _ _ _ hkn, hb1]
      rfl

theorem C4_flattenPrims_eligibility_witness :
    ∃ r, flattenPrims roW trW 0 docS 1 = some r ∧
      r.meshes.length = (eligSites 0 docS).length ∧
      (∀ s ∈ primSites docS,
        (s ∈ eligSites 0 docS ↔ filterPrim 0 docS (sitePrim docS s) = true)) ∧
      (∀ k, k < (eligSites 0 docS).length →
        ((r.meshes.getD k default).primitives.getD 0 default).indices = Ptr.mk 1 k ∧
        (r.accessors.getD k default).count
          = (derefAcc docS (sitePrim docS ((eligSites 0 docS).getD k default)).indices).count ∧
        (r.meshes.getD k default).name
          = (docS.meshes.getD ((eligSites 0 docS).getD k default).meshIdx default).name) :=
  C4_flattenPrims_eligibility roW trW 0 docS 1 (by decide) (by decide)

/-- C6: with `FILTER_TRIANGLES` set, no non-triangle source primitive is
    emitted by `flatten_prims`; without it, every otherwise-eligible source
    primitive is emitted regardless of topology (each eligible occurrence
    yields exactly one output primitive). -/
theorem C6_flattenPrims_triangle_filter (ro : ReadOracle) (tr : TransformOracle)
    (flags : Nat) (src : Document) (t : Nat) :
    ((flags &&& FILTER_TRIANGLES ≠ 0) →
      ∀ s ∈ primSites src, (sitePrim src s).kind ≠ PrimKind.triangles →
        s ∉ eligSites flags src) ∧
    ((flags &&& FILTER_TRIANGLES = 0) →
      ∀ s ∈ primSites src, primDataOk src (sitePrim src s) = true →
        s ∈ eligSites flags src) ∧
    (flattenPrimsCore ro tr flags src t).meshes.length = (eligSites flags src).length ∧
    (∀ k, k < (eligSites flags src).length →
      ((flattenPrimsCore ro tr flags src t).meshes.getD k default).primitives.length = 1 ∧
      (((flattenPrimsCore ro tr flags src t).meshes.getD k default).primitives.getD 0
          default).indices = Ptr.mk t k) := by
  refine ⟨?_, ?_, ?_, ?_⟩
  · intro hfl s hs hk hmem
    have hf : filterPrim flags src (sitePrim src s) = true :=
      (eligSites_mem_iff flags src s hs).1 hmem
    exact hk (filterPrim_triangles_of_flag flags src _ hfl hf)
  · intro hfl s hs hok
    refine (eligSites_mem_iff flags src s hs).2 ?_
    rw [filterPrim_of_no_flag flags src _ hfl]
    exact hok
  · rw [flattenPrimsCore_meshes]
    unfold primsN bakedList
    simp
  · intro k hk
    have hkn : k < primsN ro tr flags src := by
      unfold primsN bakedList
      simpa using hk
    rw [flattenPrimsCore_meshes, getD_map_range _ _ _ _ hkn]
    exact ⟨rfl, rfl⟩

/-- Same document as `docS` but the primitive's topology is lines (scenario 4:
    without the filter it is still emitted; with the filter it is culled). -/
def docL : Document :=
  { docS with
    meshes :=
      [ { name := some "m",
          primitives :=
            [ { kind := PrimKind.lines, indices := Ptr.mk 0 1, material := Ptr.null,
                attributes :=
                  [ { name := "POSITION", kind := AttrKind.position, index := 0,
                      data := Ptr.mk 0 0 } ] } ] } ] }

theorem C6_flattenPrims_triangle_filter_witness :
    ((⟨0, 0, 0⟩ : PrimSite) ∉ eligSites 1 docL) ∧
    ((⟨0, 0, 0⟩ : PrimSite) ∈ eligSites 0 docL) ∧
    (flattenPrimsCore roW trW 0 docL 1).meshes.length = (eligSites 0 docL).length := by
  have h1 := (C6_flattenPrims_triangle_filter roW trW 1 docL 1).1
  have h0 := C6_flattenPrims_triangle_filter roW trW 0 docL 1
  refine ⟨h1 (by decide) ⟨0, 0, 0⟩ (by decide) (by decide), ?_, h0.2.2.1⟩
  exact h0.2.1 (by decide) ⟨0, 0, 0⟩ (by decide) (by decide)

/-- The position accessor the bake reads for a traversal site (the last
    POSITION attribute wins, as in the source's attribute scan). -/
def posAccOf (d : Document) (s : PrimSite) : Accessor :=
  match lastAttrOfKind (sitePrim d s) AttrKind.position with
  | some a => derefAcc d a.data
  | none => default

/-- The transformed vertex position stream of a traversal site: every source
    element read as fp32 and transformed by the node's world matrix. -/
def posStream (ro : ReadOracle) (tr : TransformOracle) (d : Document)
    (s : PrimSite) : List Vec3q :=
  (List.range (posAccOf d s).count).map fun j =>
    applyMat4 (tr.world s.nodeIdx) (vec3OfFloats (ro.readFloat d (posAccOf d s) j 3))

theorem bakeSite_posCount (ro : ReadOracle) (tr : TransformOracle)
    (d : Document) (s : PrimSite) :
    (bakeSite ro tr d s).posCount = (posAccOf d s).count := rfl

theorem bakeSite_positions (ro : ReadOracle) (tr : TransformOracle)
    (d : Document) (s : PrimSite) :
    (bakeSite ro tr d s).positions = posStream ro tr d s := by
  have h : (bakeSite ro tr d s).positions
      = (bakeLoop (tr.world s.nodeIdx)
          ((List.range (posAccOf d s).count).map fun j =>
            vec3OfFloats (ro.readFloat d (posAccOf d s) j 3))
          vecFltMax vecFltLowest).1 := rfl
  rw [h, bakeLoop_fst, List.map_map]
  rfl

theorem bakeSite_bmin (ro : ReadOracle) (tr : TransformOracle)
    (d : Document) (s : PrimSite) :
    (bakeSite ro tr d s).bmin = (posStream ro tr d s).foldl vmin3 vecFltMax := by
  have h : (bakeSite ro tr d s).bmin
      = (bakeLoop (tr.world s.nodeIdx)
          ((List.range (posAccOf d s).count).map fun j =>
            vec3OfFloats (ro.readFloat d (posAccOf d s) j 3))
          vecFltMax vecFltLowest).2.1 := rfl
  rw [h, bakeLoop_min, List.map_map]
  rfl

theorem bakeSite_bmax (ro : ReadOracle) (tr : TransformOracle)
    (d : Document) (s : PrimSite) :
    (bakeSite ro tr d s).bmax = (posStream ro tr d s).foldl vmax3 vecFltLowest := by
  have h : (bakeSite ro tr d s).bmax
      = (bakeLoop (tr.world s.nodeIdx)
          ((List.range (posAccOf d s).count).map fun j =>
            vec3OfFloats (ro.readFloat d (posAccOf d s) j 3))
          vecFltMax vecFltLowest).2.2 := rfl
  rw [h, bakeLoop_max, List.map_map]
  rfl

/-- C5: for every baked position accessor of a `flatten_prims` output (the
    accessor referenced by output primitive `k`'s POSITION attribute), the
    stored `min` and `max` are the componentwise minima and maxima over that
    accessor's transformed vertex position stream (every source element read
    as fp32 and transformed by the node's world matrix).  The float-range
    bound reflects that the C code seeds its running fold with `FLT_MAX`,
    which dominates every finite float. -/
theorem C5_flattenPrims_position_minmax (ro : ReadOracle) (tr : TransformOracle)
    (flags : Nat) (src : Document) (t : Nat) (k : Nat)
    (hk : k < (eligSites flags src).length)
    (hne : posStream ro tr src ((eligSites flags src).getD k default) ≠ [])
    (hbd : ∀ v ∈ posStream ro tr src ((eligSites flags src).getD k default),
      |v.x| ≤ fltMaxQ ∧ |v.y| ≤ fltMaxQ ∧ |v.z| ≤ fltMaxQ) :
    (((flattenPrimsCore ro tr flags src t).meshes.getD k default).primitives.getD 0
        default).attributes.getD 0 default
      = { name := "POSITION", kind := AttrKind.position, index := 0,
          data := Ptr.mk t (primsN ro tr flags src + k) } ∧
    ∃ acc : Accessor,
      acc = (flattenPrimsCore ro tr flags src t).accessors.getD
        (primsN ro tr flags src + k) default ∧
      acc.componentType = ComponentType.r32f ∧
      acc.kind = ElemKind.vec3 ∧
      acc.count = (posStream ro tr src ((eligSites flags src).getD k default)).length ∧
      acc.hasMin = true ∧ acc.hasMax = true ∧
      (∃ mn : Vec3q, acc.minv = [mn.x, mn.y, mn.z] ∧
        (∀ v ∈ posStream ro tr src ((eligSites flags src).getD k default),
          mn.x ≤ v.x ∧ mn.y ≤ v.y ∧ mn.z ≤ v.z) ∧
        (∃ v ∈ posStream ro tr src ((eligSites flags src).getD k default), v.x = mn.x) ∧
        (∃ v ∈ posStream ro tr src ((eligSites flags src).getD k default), v.y = mn.y) ∧
        (∃ v ∈ posStream ro tr src ((eligSites flags src).getD k default), v.z = mn.z)) ∧
      (∃ mx : Vec3q, acc.maxv = [mx.x, mx.y, mx.z] ∧
        (∀ v ∈ posStream ro tr src ((eligSites flags src).getD k default),
          v.x ≤ mx.x ∧ v.y ≤ mx.y ∧ v.z ≤ mx.z) ∧
        (∃ v ∈ posStream ro tr src ((eligSites flags src).getD k default), v.x = mx.x) ∧
        (∃ v ∈ posStream ro tr src ((eligSites flags src).getD k default), v.y = mx.y) ∧
        (∃ v ∈ posStream ro tr src ((eligSites flags src).getD k default), v.z = mx.z)) := by
  have hkn : k < primsN ro tr flags src := by
    unfold primsN bakedList
    simpa using hk
  have hbk := bakedList_getD ro tr flags src k hk
  set s := (eligSites flags src).getD k default with hs
  set stream := posStream ro tr src s with hstr
  constructor
  · rw [flattenPrimsCore_meshes, getD_map_range _ _ _ _ hkn]
    rfl
  · refine ⟨posAccAt t (primsN ro tr flags src) (bakedList ro tr flags src) k,
      (flattenPrimsCore_accessors_pos ro tr flags src t k hkn).symm,
      rfl, rfl, ?_, rfl, rfl, ?_, ?_⟩
    · show (((bakedList ro tr flags src).getD k default).posCount) = stream.length
      rw [hbk, bakeSite_posCount]
      rw [hstr]
      unfold posStream
      simp
    · refine ⟨((bakedList ro tr flags src).getD k default).bmin, rfl, ?_, ?_, ?_, ?_⟩
      · intro v hv
        rw [hbk, bakeSite_bmin]
        refine ⟨?_, ?_, ?_⟩
        · rw [foldl_vmin3_x]
          exact foldl_min_le _ v.x (List.mem_map_of_mem _ hv) _
        · rw [foldl_vmin3_y]
          exact foldl_min_le _ v.y (List.mem_map_of_mem _ hv) _
        · rw [foldl_vmin3_z]
          exact foldl_min_le _ v.z (List.mem_map_of_mem _ hv) _
      · rw [hbk, bakeSite_bmin, foldl_vmin3_x]
        rcases foldl_min_attained (stream.map (·.x))
          (by simpa using hne)
          (fun q hq => by
            rcases List.mem_map.1 hq with ⟨v, hv, rfl⟩
            exact (abs_le.1 (hbd v hv).1).2) with ⟨q, hq, he⟩
        rcases List.mem_map.1 hq with ⟨v, hv, rfl⟩
        exact ⟨v, hv, by rw [he]; rfl⟩
      · rw [hbk, bakeSite_bmin, foldl_vmin3_y]
        rcases foldl_min_attained (stream.map (·.y))
          (by simpa using hne)
          (fun q hq => by
            rcases List.mem_map.1 hq with ⟨v, hv, rfl⟩
            exact (abs_le.1 (hbd v hv).2.1).2) with ⟨q, hq, he⟩
        rcases List.mem_map.1 hq with ⟨v, hv, rfl⟩
        exact ⟨v, hv, by rw [he]; rfl⟩
      · rw [hbk, bakeSite_bmin, foldl_vmin3_z]
        rcases foldl_min_attained (stream.map (·.z))
          (by simpa using hne)
          (fun q hq => by
            rcases List.mem_map.1 hq with ⟨v, hv, rfl⟩
            exact (abs_le.1 (hbd v hv).2.2).2) with ⟨q, hq, he⟩
        rcases List.mem_map.1 hq with ⟨v, hv, rfl⟩
        exact ⟨v, hv, by rw [he]; rfl⟩
    · refine ⟨((bakedList ro tr flags src).getD k default).bmax, rfl, ?_, ?_, ?_, ?_⟩
      · intro v hv
        rw [hbk, bakeSite_bmax]
        refine ⟨?_, ?_, ?_⟩
        · rw [foldl_vmax3_x]
          exact le_foldl_max _ v.x (List.mem_map_of_mem _ hv) _
        · rw [foldl_vmax3_y]
          exact le_foldl_max _ v.y (List.mem_map_of_mem _ hv) _
        · rw [foldl_vmax3_z]
          exact le_foldl_max _ v.z (List.mem_map_of_mem _ hv) _
      · rw [hbk, bakeSite_bmax, foldl_vmax3_x]
        rcases foldl_max_attained (stream.map (·.x))
          (by simpa using hne)
          (fun q hq => by
            rcases List.mem_map.1 hq with ⟨v, hv, rfl⟩
            exact (abs_le.1 (hbd v hv).1).1) with ⟨q, hq, he⟩
        rcases List.mem_map.1 hq with ⟨v, hv, rfl⟩
        exact ⟨v, hv, by rw [he]; rfl⟩
      · rw [hbk, bakeSite_bmax, foldl_vmax3_y]
        rcases foldl_max_attained (stream.map (·.y))
          (by simpa using hne)
          (fun q hq => by
            rcases List.mem_map.1 hq with ⟨v, hv, rfl⟩
            exact (abs_le.1 (hbd v hv).2.1).1) with ⟨q, hq, he⟩
        rcases List.mem_map.1 hq with ⟨v, hv, rfl⟩
        exact ⟨v, hv, by rw [he]; rfl⟩
      · rw [hbk, bakeSite_bmax, foldl_vmax3_z]
        rcases foldl_max_attained (stream.map (·.z))
          (by simpa using hne)
          (fun q hq => by
            rcases List.mem_map.1 hq with ⟨v, hv, rfl⟩
            exact (abs_le.1 (hbd v hv).2.2).1) with ⟨q, hq, he⟩
        rcases List.mem_map.1 hq with ⟨v, hv, rfl⟩
        exact ⟨v, hv, by rw [he]; rfl⟩

theorem C5_flattenPrims_position_minmax_witness :
    (((flattenPrimsCore roW trW 0 docS 1).meshes.getD 0 default).primitives.getD 0
        default).attributes.getD 0 default
      = { name := "POSITION", kind := AttrKind.position, index := 0,
          data := Ptr.mk 1 (primsN roW trW 0 docS + 0) } ∧
    ∃ acc : Accessor,
      acc = (flattenPrimsCore roW trW 0 docS 1).accessors.getD
        (primsN roW trW 0 docS + 0) default ∧
      acc.componentType = ComponentType.r32f ∧
      acc.kind = ElemKind.vec3 ∧
      acc.count = (posStream roW trW docS ((eligSites 0 docS).getD 0 default)).length ∧
      acc.hasMin = true ∧ acc.hasMax = true ∧
      (∃ mn : Vec3q, acc.minv = [mn.x, mn.y, mn.z] ∧
        (∀ v ∈ posStream roW trW docS ((eligSites 0 docS).getD 0 default),
          mn.x ≤ v.x ∧ mn.y ≤ v.y ∧ mn.z ≤ v.z) ∧
        (∃ v ∈ posStream roW trW docS ((eligSites 0 docS).getD 0 default), v.x = mn.x) ∧
        (∃ v ∈ posStream roW trW docS ((eligSites 0 docS).getD 0 default), v.y = mn.y) ∧
        (∃ v ∈ posStream roW trW docS ((eligSites 0 docS).getD 0 default), v.z = mn.z)) ∧
      (∃ mx : Vec3q, acc.maxv = [mx.x, mx.y, mx.z] ∧
        (∀ v ∈ posStream roW trW docS ((eligSites 0 docS).getD 0 default),
          v.x ≤ mx.x ∧ v.y ≤ mx.y ∧ v.z ≤ mx.z) ∧
        (∃ v ∈ posStream roW trW docS ((eligSites 0 docS).getD 0 default), v.x = mx.x) ∧
        (∃ v ∈ posStream roW trW docS ((eligSites 0 docS).getD 0 default), v.y = mx.y) ∧
        (∃ v ∈ posStream roW trW docS ((eligSites 0 docS).getD 0 default), v.z = mx.z)) := by
  have hcount : (posAccOf docS ((eligSites 0 docS).getD 0 default)).count = 3 := by decide
  refine C5_flattenPrims_position_minmax roW trW 0 docS 1 0 (by decide) ?_ ?_
  · unfold posStream
    rw [hcount]
    simp
  · intro v hv
    unfold posStream at hv
    rw [hcount] at hv
    rcases List.mem_map.1 hv with ⟨j, hj, rfl⟩
    have hj3 : (j : ℚ) ≤ 3 := by
      have := List.mem_range.1 hj
      exact_mod_cast Nat.le_of_lt this
    have hflt : (3 : ℚ) ≤ fltMaxQ := by norm_num [fltMaxQ]
    have hx : applyMat4 (trW.world ((eligSites 0 docS).getD 0 default).nodeIdx)
        (vec3OfFloats (roW.readFloat docS (posAccOf docS ((eligSites 0 docS).getD 0 default)) j 3))
        = { x := (j : ℚ), y := 0, z := 0 } := by
      show applyMat4 idMat4 (vec3OfFloats [(j : ℚ), 0, 0]) = _
      simp [applyMat4, idMat4, vec3OfFloats]
    rw [hx]
    refine ⟨?_, by simp [abs_nonneg]; linarith, by simp [abs_nonneg]; linarith⟩
    show |(j : ℚ)| ≤ fltMaxQ
    rw [abs_of_nonneg (by positivity)]
    linarith

/-- Single-buffer document with one texture, used to exhibit that
    `flattenPrims` writes through the texture array it shares with its
    input. -/
def docT : Document :=
  { buffersArena := 0,
    buffers := [ { size := 0, data := some [] } ],
    imagesArena := 0, images := [{}],
    texturesArena := 0, textures := [ { image := Ptr.mk 0 0 } ],
    scenesArena := 0, scenes := [{}], scene := Ptr.mk 0 0 }

/-- C9 (code bug): `flatten_prims` mutates its input.  The result document
    shares the input's texture array (`resultAsset->textures =
    sourceAsset->textures`) and the fix-up loop `resultAsset->textures[i].image
    = images + imageIndex` writes through it, so after the stage returns the
    INPUT document's texture record points at the output's cloned image array
    — the input is no longer byte-for-byte unchanged, contradicting the
    declared `const` input, the in-code comment ("Copy over the buffer views,
    accessors, and textures"), and the spec's "Stages never mutate input
    documents". -/
theorem C9_flattenPrims_mutates_input :
    (docT.textures.getD 0 default).image = Ptr.mk 0 0 ∧
    ((flattenPrimsSourceAfter roW trW 0 docT 1).textures.getD 0 default).image
      = Ptr.mk 1 0 ∧
    flattenPrimsSourceAfter roW trW 0 docT 1 ≠ docT := by decide

/-! UV parameterization (`isFlattened`, `Pipeline::xatlasToCgltf`,
    `Pipeline::parameterize`, `AssetPipeline::save`). -/

/-- Modelled from the spec (section 6.2): one output vertex of the external xatlas
    chart builder — an atlas-space UV pair plus the source-vertex index it
    originated from. -/
structure AtlasVertex where
  u : ℚ := 0
  v : ℚ := 0
  xref : Nat := 0
deriving DecidableEq, Repr

instance : Inhabited AtlasVertex := ⟨{}⟩

/-- Modelled from the spec (section 6.2): the per-mesh output of the atlas builder. -/
structure AtlasMesh where
  vertexCount : Nat := 0
  indexCount : Nat := 0
  vertexArray : List AtlasVertex := []
  indexArray : List Nat := []
deriving DecidableEq, Repr

instance : Inhabited AtlasMesh := ⟨{}⟩

/-- Modelled from the spec (section 6.2): the computed atlas. -/
structure Atlas where
  meshes : List AtlasMesh := []
deriving DecidableEq, Repr

instance : Inhabited Atlas := ⟨{}⟩

/-- `isFlattened`: the flattened-document gate used by `parameterize`, `save`
    and the bake entry points.  It checks buffer count, `nodes_count ==
    meshes_count` and the generator string — and nothing else.  (The C code
    calls `strcmp` on `asset.generator`, undefined on a null generator;
    modelled as not flattened.) -/
def isFlattened (d : Document) : Bool :=
  d.buffers.length == 1 && d.nodes.length == d.meshes.length &&
    d.asset.generator == some GENERATOR_ID

/-- Diagnostic of the `parameterize` precondition gate (exact source text). -/
def PARAM_PRECONDITION_MSG : String := "Only flattened assets can be parameterized."

/-- Diagnostic of the `save` precondition gate (exact source text). -/
def SAVE_PRECONDITION_MSG : String := "Only flattened assets can be exported to disk."

/-- Modelled from the spec: the diagnostic `cgltfToXatlas` logs when the
    external atlas builder rejects a mesh; the source text interpolates the
    mesh name and the xatlas error string, which are external values. -/
def ADD_MESH_FAIL_MSG : String := "Error parameterizing mesh."

/-- First primitive of mesh `i` (`sourceAsset->meshes[i].primitives[0]`;
    reading an empty primitive list is undefined behaviour, modelled by the
    zero primitive). -/
def srcPrim0 (src : Document) (i : Nat) : Primitive :=
  (src.meshes.getD i default).primitives.getD 0 default

/-- Float width of an attribute's element (`getNumFloats(attrib.data->type)`). -/
def attrFloats (src : Document) (a : Attrib) : Nat :=
  getNumFloats (derefAcc src a.data).kind

/-- Interleaved floats per vertex: all source attribute widths plus the two
    baked UV floats. -/
def floatsPerVertOf (src : Document) (p : Primitive) : Nat :=
  (p.attributes.map (attrFloats src)).sum + 2

/-- Number of accessors laid down before those of primitive `i`
    (each primitive contributes `attributes_count + 2`). -/
def xatlasAccBase (src : Document) (i : Nat) : Nat :=
  ((List.range i).map fun i2 => (srcPrim0 src i2).attributes.length + 2).sum

/-- The accessors of output primitive `i`: one fp32 accessor per source
    attribute at its interleaved offset, then the trailing fp32 vec2 baked-UV
    accessor, then the u32 index accessor. -/
def xatlasPerPrimAccs (src : Document) (atlas : Atlas) (t i : Nat) : List Accessor :=
  let sp := srcPrim0 src i
  let am := atlas.meshes.getD i default
  let stride := 4 * floatsPerVertOf src sp
  ((List.range sp.attributes.length).map fun ai =>
    let sa := derefAcc src (sp.attributes.getD ai default).data
    { componentType := ComponentType.r32f, kind := sa.kind,
      offset := 4 * ((sp.attributes.take ai).map (attrFloats src)).sum,
      count := am.vertexCount, stride := stride,
      bufferView := Ptr.mk t (2 * i),
      hasMin := sa.hasMin, minv := if sa.hasMin then sa.minv else [],
      hasMax := sa.hasMax, maxv := if sa.hasMax then sa.maxv else [] })
  ++ [ { componentType := ComponentType.r32f, kind := ElemKind.vec2,
         offset := 4 * (sp.attributes.map (attrFloats src)).sum,
         count := am.vertexCount, stride := stride,
         bufferView := Ptr.mk t (2 * i) },
       { componentType := ComponentType.r32u, kind := ElemKind.scalar,
         count := am.indexCount, stride := 4,
         bufferView := Ptr.mk t (2 * i + 1) } ]

/-- Output primitive `i` of `xatlasToCgltf`: the source attribute list
    redirected to the new accessors, then the appended `TEXCOORD_4`
    attribute; `indices` points at the trailing index accessor; topology and
    material are carried from the source primitive. -/
def xatlasPrimAt (src : Document) (t i : Nat) : Primitive :=
  let sp := srcPrim0 src i
  let base := xatlasAccBase src i
  { sp with
    attributes :=
      ((List.range sp.attributes.length).map fun ai =>
        let a := sp.attributes.getD ai default
        { name := a.name, kind := a.kind, index := a.index,
          data := Ptr.mk t (base + ai) })
      ++ [ { name := BAKED_UV_ATTRIB, kind := AttrKind.texcoord,
             index := BAKED_UV_ATTRIB_INDEX,
             data := Ptr.mk t (base + sp.attributes.length) } ],
    indices := Ptr.mk t (base + sp.attributes.length + 1) }

/-- Total interleaved float count over all primitives. -/
def xatlasNumFloats (src : Document) (atlas : Atlas) : Nat :=
  ((List.range atlas.meshes.length).map fun i =>
    (atlas.meshes.getD i default).vertexCount * floatsPerVertOf src (srcPrim0 src i)).sum

/-- Total output index count. -/
def xatlasNumIndices (atlas : Atlas) : Nat := (atlas.meshes.map (·.indexCount)).sum

/-- Byte offset of primitive `i`'s interleaved vertex block. -/
def xatlasVertOffBefore (src : Document) (atlas : Atlas) (i : Nat) : Nat :=
  ((List.range i).map fun i2 =>
    (atlas.meshes.getD i2 default).vertexCount *
      (4 * floatsPerVertOf src (srcPrim0 src i2))).sum

/-- Byte offset of primitive `i`'s index block (the index region follows all
    interleaved vertex data). -/
def xatlasIdxOffBefore (src : Document) (atlas : Atlas) (i : Nat) : Nat :=
  4 * xatlasNumFloats src atlas +
    4 * ((List.range i).map fun i2 => (atlas.meshes.getD i2 default).indexCount).sum

/-- The two buffer views of output primitive `i`: interleaved vertices (with
    stride) and u32 indices. -/
def xatlasViewsAt (src : Document) (atlas : Atlas) (t i : Nat) : List BufferView :=
  [ { buffer := Ptr.mk t 0, offset := xatlasVertOffBefore src atlas i,
      size := (atlas.meshes.getD i default).vertexCount *
        (4 * floatsPerVertOf src (srcPrim0 src i)),
      stride := 4 * floatsPerVertOf src (srcPrim0 src i),
      kind := ViewKind.vertices },
    { buffer := Ptr.mk t 0, offset := xatlasIdxOffBefore src atlas i,
      size := 4 * (atlas.meshes.getD i default).indexCount,
      kind := ViewKind.indices } ]

/-- Read exactly `w` floats (the C read writes `elementSize` floats). -/
def floatsTake (l : List ℚ) (w : Nat) : List ℚ :=
  (List.range w).map fun i => l.getD i 0

/-- Interleaved vertex block of primitive `i`: for each atlas vertex, every
    source attribute read as fp32 at the vertex's `xref`, then the two UVs. -/
def xatlasVertexCells (ro : ReadOracle) (src : Document) (atlas : Atlas)
    (i : Nat) : List Cell :=
  let sp := srcPrim0 src i
  let am := atlas.meshes.getD i default
  ((List.range am.vertexCount).map fun j =>
    let av := am.vertexArray.getD j default
    ((sp.attributes.map fun a =>
        (floatsTake (ro.readFloat src (derefAcc src a.data) av.xref (attrFloats src a))
          (attrFloats src a)).map Cell.f32).flatten)
      ++ [Cell.f32 av.u, Cell.f32 av.v]).flatten

/-- Index region: each mesh's first `indexCount` output indices as u32. -/
def xatlasIndexCells (atlas : Atlas) : List Cell :=
  (atlas.meshes.map fun am => (am.indexArray.take am.indexCount).map Cell.u32).flatten

/-- The consolidated output buffer payload. -/
def xatlasBufferData (ro : ReadOracle) (src : Document) (atlas : Atlas) : List Cell :=
  ((List.range atlas.meshes.length).map fun i =>
    xatlasVertexCells ro src atlas i).flatten ++ xatlasIndexCells atlas

/-- Overwrite the front of `dst` with `new` — the shared `nodePointers`
    cursor of the scene-clone loop is never advanced between scenes, so each
    scene's writes land at the start of the same array. -/
def overwritePrefix {α : Type _} (dst new : List α) : List α :=
  new ++ dst.drop new.length

/-- Final content of the shared `nodePointers` array after the scene-clone
    loop. -/
def xatlasNodePtrs (src : Document) (t : Nat) : List Ptr :=
  src.scenes.foldl (fun arr s => overwritePrefix arr (s.nodes.map (remapU t)))
    (List.replicate ((src.scenes.map (·.nodes.length)).sum) Ptr.null)

/-- `Pipeline::xatlasToCgltf` past its gates. -/
def xatlasCore (ro : ReadOracle) (src : Document) (atlas : Atlas) (t : Nat) : Document :=
  let n := atlas.meshes.length
  let accessors := ((List.range n).map (xatlasPerPrimAccs src atlas t)).flatten
  let views := ((List.range n).map (xatlasViewsAt src atlas t)).flatten
  let meshes := (List.range n).map fun i =>
    { src.meshes.getD i default with primitives := [xatlasPrimAt src t i] }
  let nodes := (List.range n).map fun i =>
    { src.nodes.getD i default with mesh := Ptr.mk t i }
  let np := xatlasNodePtrs src t
  let scenes := src.scenes.map fun s => { s with nodes := np.take s.nodes.length }
  let buffers : List Buffer :=
    [ { size := 4 * (xatlasNumIndices atlas + xatlasNumFloats src atlas),
        data := some (xatlasBufferData ro src atlas), uri := none } ]
  { src with
    buffersArena := t, buffers := buffers,
    viewsArena := t, bufferViews := views,
    accessorsArena := t, accessors := accessors,
    meshesArena := t, meshes := meshes,
    nodesArena := t, nodes := nodes,
    scenesArena := t, scenes := scenes,
    scene := remapU t src.scene }

/-- `Pipeline::xatlasToCgltf` with its two rejection gates and their exact
    diagnostics. -/
def xatlasToCgltf (ro : ReadOracle) (src : Document) (atlas : Atlas)
    (t : Nat) : Except String Document :=
  if !(src.buffers.length == 1 && !((src.buffers.getD 0 default).data == none)) then
    Except.error "Parameterization requires a valid flattened asset."
  else if !(atlas.meshes.length == src.meshes.length) then
    Except.error "Unexpected mesh count."
  else
    Except.ok (xatlasCore ro src atlas t)

/-- `Pipeline::parameterize`: reject non-flattened documents with a
    diagnostic; otherwise drive the external atlas builder (its outcome is the
    `atlasResult` oracle — `none` models an AddMesh failure inside
    `cgltfToXatlas`) and convert the atlas back to a document.  Progress logs
    are omitted; the returned list holds the error diagnostics. -/
def parameterize (ro : ReadOracle) (atlasResult : Option Atlas) (src : Document)
    (t : Nat) : Option Document × List String :=
  if !(isFlattened src) then (none, [PARAM_PRECONDITION_MSG])
  else
    match atlasResult with
    | none => (none, [ADD_MESH_FAIL_MSG])
    | some atlas =>
        match xatlasToCgltf ro src atlas t with
        | Except.error e => (none, [e])
        | Except.ok r => (some r, [])

/-- `AssetPipeline::save`: reject non-flattened documents with a diagnostic
    and write nothing; otherwise write the JSON (external serializer, not
    modelled) and the binary payload, which is the raw content of
    `buffers[0].data`. -/
def save (src : Document) : Option (List Cell) × List String :=
  if !(isFlattened src) then (none, [SAVE_PRECONDITION_MSG])
  else (some ((src.buffers.getD 0 default).data.getD []), [])

theorem xatlasPerPrimAccs_length (src : Document) (atlas : Atlas) (t i : Nat) :
    (xatlasPerPrimAccs src atlas t i).length
      = (srcPrim0 src i).attributes.length + 2 := by
  simp [xatlasPerPrimAccs]

theorem xatlasCore_accessors (ro : ReadOracle) (src : Document) (atlas : Atlas)
    (t : Nat) :
    (xatlasCore ro src atlas t).accessors
      = ((List.range atlas.meshes.length).map (xatlasPerPrimAccs src atlas t)).flatten := rfl

theorem xatlasCore_meshes (ro : ReadOracle) (src : Document) (atlas : Atlas)
    (t : Nat) :
    (xatlasCore ro src atlas t).meshes
      = (List.range atlas.meshes.length).map fun i =>
          { src.meshes.getD i default with primitives := [xatlasPrimAt src t i] } := rfl

theorem xatlasCore_accessors_getD (ro : ReadOracle) (src : Document)
    (atlas : Atlas) (t i j : Nat) (hi : i < atlas.meshes.length)
    (hj : j < (srcPrim0 src i).attributes.length + 2) :
    (xatlasCore ro src atlas t).accessors.getD (xatlasAccBase src i + j) default
      = (xatlasPerPrimAccs src atlas t i).getD j default := by
  rw [xatlasCore_accessors]
  have hbase : ((((List.range atlas.meshes.length).map
      (xatlasPerPrimAccs src atlas t)).take i).map List.length).sum
        = xatlasAccBase src i := by
    rw [← List.map_take, List.take_range, Nat.min_eq_left (le_of_lt hi), List.map_map]
    unfold xatlasAccBase
    refine congrArg List.sum (List.map_congr_left ?_)
    intro a _
    exact xatlasPerPrimAccs_length src atlas t a
  rw [← hbase]
  have hlen2 : j < (((List.range atlas.meshes.length).map
      (xatlasPerPrimAccs src atlas t)).getD i []).length := by
    rw [getD_map_range _ _ _ _ hi, xatlasPerPrimAccs_length]
    exact hj
  rw [flatten_getD _ i j default (by simpa using hi) hlen2]
  rw [getD_map_range _ _ _ _ hi]

/-- C3: after `parameterize` (formalized at the document-rebuild step
    `xatlasToCgltf`, which `parameterize` calls on success), every output
    primitive's attribute list has exactly one more entry than the source
    primitive's; the source entries keep their name, semantic and set index;
    the appended entry is named `TEXCOORD_4` with texcoord semantic and index
    4, and it references an fp32 vec2 accessor whose offset is the trailing
    offset inside the interleaved vertex stride of that primitive. -/
theorem C3_parameterize_texcoord4 (ro : ReadOracle) (src : Document)
    (atlas : Atlas) (t i : Nat)
    (hb : src.buffers.length = 1)
    (hd : (src.buffers.getD 0 default).data ≠ none)
    (hlen : atlas.meshes.length = src.meshes.length)
    (hi : i < src.meshes.length) :
    ∃ r, xatlasToCgltf ro src atlas t = Except.ok r ∧
      r.meshes.length = src.meshes.length ∧
      (r.meshes.getD i default).primitives.length = 1 ∧
      ((r.meshes.getD i default).primitives.getD 0 default).attributes.length
        = (srcPrim0 src i).attributes.length + 1 ∧
      (∀ ai, ai < (srcPrim0 src i).attributes.length →
        (((r.meshes.getD i default).primitives.getD 0 default).attributes.getD ai
            default).name = ((srcPrim0 src i).attributes.getD ai default).name ∧
        (((r.meshes.getD i default).primitives.getD 0 default).attributes.getD ai
            default).kind = ((srcPrim0 src i).attributes.getD ai default).kind ∧
        (((r.meshes.getD i default).primitives.getD 0 default).attributes.getD ai
            default).index = ((srcPrim0 src i).attributes.getD ai default).index) ∧
      ((r.meshes.getD i default).primitives.getD 0 default).attributes.getLast?
        = some { name := BAKED_UV_ATTRIB, kind := AttrKind.texcoord,
                 index := BAKED_UV_ATTRIB_INDEX,
                 data := Ptr.mk t
                   (xatlasAccBase src i + (srcPrim0 src i).attributes.length) } ∧
      r.accessors.getD (xatlasAccBase src i + (srcPrim0 src i).attributes.length)
          default
        = { componentType := ComponentType.r32f, kind := ElemKind.vec2,
            offset := 4 * ((srcPrim0 src i).attributes.map (attrFloats src)).sum,
            count := (atlas.meshes.getD i default).vertexCount,
            stride := 4 * floatsPerVertOf src (srcPrim0 src i),
            bufferView := Ptr.mk t (2 * i) } := by
  have hin : i < atlas.meshes.length := by omega
  have hok : xatlasToCgltf ro src atlas t = Except.ok (xatlasCore ro src atlas t) := by
    unfold xatlasToCgltf
    have h1 : (src.buffers.length == 1) = true := by simp [hb]
    have h2 : ((src.buffers.getD 0 default).data == none) = false := by simpa using hd
    have h3 : (atlas.meshes.length == src.meshes.length) = true := by simp [hlen]
    rw [h1, h2, h3]
    rfl
  refine ⟨xatlasCore ro src atlas t, hok, ?_, ?_, ?_, ?_, ?_, ?_⟩
  · rw [xatlasCore_meshes]
    simp [hlen]
  · rw [xatlasCore_meshes, getD_map_range _ _ _ _ hin]
    rfl
  · rw [xatlasCore_meshes, getD_map_range _ _ _ _ hin]
    show (xatlasPrimAt src t i).attributes.length = _
    simp [xatlasPrimAt]
  · intro ai hai
    rw [xatlasCore_meshes, getD_map_range _ _ _ _ hin]
    show ((xatlasPrimAt src t i).attributes.getD ai default).name = _ ∧
      ((xatlasPrimAt src t i).attributes.getD ai default).kind = _ ∧
      ((xatlasPrimAt src t i).attributes.getD ai default).index = _
    unfold xatlasPrimAt
    rw [getD_append_left _ _ _ _ (by simpa using hai), getD_map_range _ _ _ _ hai]
    exact ⟨rfl, rfl, rfl⟩
  · rw [xatlasCore_meshes, getD_map_range _ _ _ _ hin]
    show (xatlasPrimAt src t i).attributes.getLast? = _
    unfold xatlasPrimAt
    rw [List.getLast?_concat]
  · rw [xatlasCore_accessors_getD ro src atlas t i _ hin (by omega)]
    unfold xatlasPerPrimAccs
    have hl : ((List.range (srcPrim0 src i).attributes.length).map fun ai =>
        let sa := derefAcc src ((srcPrim0 src i).attributes.getD ai default).data
        ({ componentType := ComponentType.r32f, kind := sa.kind,
           offset := 4 * (((srcPrim0 src i).attributes.take ai).map (attrFloats src)).sum,
           count := (atlas.meshes.getD i default).vertexCount,
           stride := 4 * floatsPerVertOf src (srcPrim0 src i),
           bufferView := Ptr.mk t (2 * i),
           hasMin := sa.hasMin, minv := if sa.hasMin then sa.minv else [],
           hasMax := sa.hasMax,
           maxv := if sa.hasMax then sa.maxv else [] } : Accessor)).length
        = (srcPrim0 src i).attributes.length := by simp
    rw [← hl]
    rw [show (((List.range (srcPrim0 src i).attributes.length).map fun ai =>
        let sa := derefAcc src ((srcPrim0 src i).attributes.getD ai default).data
        ({ componentType := ComponentType.r32f, kind := sa.kind,
           offset := 4 * (((srcPrim0 src i).attributes.take ai).map (attrFloats src)).sum,
           count := (atlas.meshes.getD i default).vertexCount,
           stride := 4 * floatsPerVertOf src (srcPrim0 src i),
           bufferView := Ptr.mk t (2 * i),
           hasMin := sa.hasMin, minv := if sa.hasMin then sa.minv else [],
           hasMax := sa.hasMax,
           maxv := if sa.hasMax then sa.maxv else [] } : Accessor)).length)
      = (((List.range (srcPrim0 src i).attributes.length).map fun ai =>
        let sa := derefAcc src ((srcPrim0 src i).attributes.getD ai default).data
        ({ componentType := ComponentType.r32f, kind := sa.kind,
           offset := 4 * (((srcPrim0 src i).attributes.take ai).map (attrFloats src)).sum,
           count := (atlas.meshes.getD i default).vertexCount,
           stride := 4 * floatsPerVertOf src (srcPrim0 src i),
           bufferView := Ptr.mk t (2 * i),
           hasMin := sa.hasMin, minv := if sa.hasMin then sa.minv else [],
           hasMax := sa.hasMax,
           maxv := if sa.hasMax then sa.maxv else [] } : Accessor)).length) + 0
      from by omega]
    rw [getD_append_shift]
    rfl

/-- Flattened-shaped document (one buffer, generator set, one mesh with one
    primitive carrying one POSITION attribute) for the C3 witness. -/
def docP : Document :=
  { asset := { generator := some GENERATOR_ID },
    buffersArena := 0, buffers := [ { size := 24, data := some [] } ],
    accessorsArena := 0,
    accessors :=
      [ { componentType := ComponentType.r32f, kind := ElemKind.vec3, count := 2,
          stride := 12, bufferView := Ptr.mk 0 0 },
        { componentType := ComponentType.r32u, kind := ElemKind.scalar, count := 3,
          stride := 4, bufferView := Ptr.mk 0 1 } ],
    viewsArena := 0,
    bufferViews :=
      [ { buffer := Ptr.mk 0 0, offset := 0, size := 24 },
        { buffer := Ptr.mk 0 0, offset := 24, size := 12 } ],
    meshesArena := 0,
    meshes :=
      [ { name := some "m",
          primitives :=
            [ { kind := PrimKind.triangles, indices := Ptr.mk 0 1,
                attributes :=
                  [ { name := "POSITION", kind := AttrKind.position, index := 0,
                      data := Ptr.mk 0 0 } ] } ] } ],
    nodesArena := 0, nodes := [ { mesh := Ptr.mk 0 0 } ],
    scenesArena := 0, scenes := [ { nodes := [Ptr.mk 0 0] } ],
    scene := Ptr.mk 0 0 }

/-- Atlas-builder output used by the C3 witness: two output vertices, three
    output indices. -/
def atlasP : Atlas :=
  { meshes :=
      [ { vertexCount := 2, indexCount := 3,
          vertexArray := [ {}, { xref := 1 } ], indexArray := [0, 1, 2] } ] }

theorem C3_parameterize_texcoord4_witness :
    ∃ r, xatlasToCgltf roW docP atlasP 1 = Except.ok r ∧
      r.meshes.length = docP.meshes.length ∧
      (r.meshes.getD 0 default).primitives.length = 1 ∧
      ((r.meshes.getD 0 default).primitives.getD 0 default).attributes.length
        = (srcPrim0 docP 0).attributes.length + 1 ∧
      (∀ ai, ai < (srcPrim0 docP 0).attributes.length →
        (((r.meshes.getD 0 default).primitives.getD 0 default).attributes.getD ai
            default).name = ((srcPrim0 docP 0).attributes.getD ai default).name ∧
        (((r.meshes.getD 0 default).primitives.getD 0 default).attributes.getD ai
            default).kind = ((srcPrim0 docP 0).attributes.getD ai default).kind ∧
        (((r.meshes.getD 0 default).primitives.getD 0 default).attributes.getD ai
            default).index = ((srcPrim0 docP 0).attributes.getD ai default).index) ∧
      ((r.meshes.getD 0 default).primitives.getD 0 default).attributes.getLast?
        = some { name := BAKED_UV_ATTRIB, kind := AttrKind.texcoord,
                 index := BAKED_UV_ATTRIB_INDEX,
                 data := Ptr.mk 1
                   (xatlasAccBase docP 0 + (srcPrim0 docP 0).attributes.length) } ∧
      r.accessors.getD (xatlasAccBase docP 0 + (srcPrim0 docP 0).attributes.length)
          default
        = { componentType := ComponentType.r32f, kind := ElemKind.vec2,
            offset := 4 * ((srcPrim0 docP 0).attributes.map (attrFloats docP)).sum,
            count := (atlasP.meshes.getD 0 default).vertexCount,
            stride := 4 * floatsPerVertOf docP (srcPrim0 docP 0),
            bufferView := Ptr.mk 1 (2 * 0) } :=
  C3_parameterize_texcoord4 roW docP atlasP 1 0 (by decide) (by decide)
    (by decide) (by decide)

theorem xatlasToCgltf_error_ne (ro : ReadOracle) (src : Document) (atlas : Atlas)
    (t : Nat) (e : String)
    (h : xatlasToCgltf ro src atlas t = Except.error e) :
    e ≠ PARAM_PRECONDITION_MSG := by
  unfold xatlasToCgltf at h
  split at h
  · cases h
    decide
  · split at h
    · cases h
      decide
    · cases h

/-- C7 (amended): the acceptance gate shared by `parameterize` and `save` is
    the code's `isFlattened` — one buffer, `nodes_count == meshes_count`, and
    `asset.generator` equal to the pipeline identifier; it does NOT check that
    each mesh has exactly one primitive.  A rejected document yields a null
    result with the gate diagnostic (`save` writes nothing); an accepted
    document never produces the gate diagnostic, and `save` writes the
    payload. -/
theorem C7_parameterize_save_gate_amended (ro : ReadOracle) (ar : Option Atlas)
    (src : Document) (t : Nat) :
    (isFlattened src = false →
      parameterize ro ar src t = (none, [PARAM_PRECONDITION_MSG])) ∧
    (isFlattened src = true →
      PARAM_PRECONDITION_MSG ∉ (parameterize ro ar src t).2) ∧
    (isFlattened src = false → save src = (none, [SAVE_PRECONDITION_MSG])) ∧
    (isFlattened src = true → (save src).1 ≠ none ∧ (save src).2 = []) ∧
    (isFlattened src = true ↔
      (src.buffers.length = 1 ∧ src.nodes.length = src.meshes.length ∧
       src.asset.generator = some GENERATOR_ID)) := by
  refine ⟨?_, ?_, ?_, ?_, ?_⟩
  · intro hf
    unfold parameterize
    rw [hf]
    rfl
  · intro hf
    unfold parameterize
    rw [hf]
    simp only [Bool.not_true]
    cases ar with
    | none =>
        intro hmem
        have : PARAM_PRECONDITION_MSG = ADD_MESH_FAIL_MSG := by simpa using hmem
        exact absurd this (by decide)
    | some atlas =>
        cases hx : xatlasToCgltf ro src atlas t with
        | error e =>
            intro hmem
            have : PARAM_PRECONDITION_MSG = e := by simpa [hx] using hmem
            exact xatlasToCgltf_error_ne ro src atlas t e hx this.symm
        | ok r => simp [hx]
  · intro hf
    unfold save
    rw [hf]
    rfl
  · intro hf
    unfold save
    rw [hf]
    exact ⟨fun hc => Option.noConfusion hc, rfl⟩
  · unfold isFlattened
    simp
    exact and_assoc

/-- One-buffer document with the generator stamp and matching node/mesh
    counts whose single mesh holds TWO primitives. -/
def docE : Document :=
  { asset := { generator := some GENERATOR_ID },
    buffersArena := 0, buffers := [ { size := 0, data := some [] } ],
    meshesArena := 0, meshes := [ { primitives := [ {}, {} ] } ],
    nodesArena := 0, nodes := [ { mesh := Ptr.mk 0 0 } ],
    scenesArena := 0, scenes := [ {} ], scene := Ptr.mk 0 0 }

/-- Atlas-builder output matching `docE`'s mesh count. -/
def atlasE : Atlas := { meshes := [ {} ] }

/-- C7 counterexample: `docE` is NOT flattened in the claim's sense (its mesh
    has two primitives), yet `parameterize` accepts it — the gate passes, no
    diagnostic is produced, and a document is returned — refuting "accepts a
    document if and only if ... each mesh with exactly one primitive ... and
    on any non-flattened document returns a null/empty result together with a
    diagnostic". -/
theorem C7_parameterize_save_gate_counterexample :
    isFlattened docE = true ∧
    (docE.meshes.getD 0 default).primitives.length = 2 ∧
    (parameterize roW (some atlasE) docE 1).2 = [] ∧
    (parameterize roW (some atlasE) docE 1).1 ≠ none := by decide

theorem C7_parameterize_save_gate_amended_witness :
    parameterize roW none docA 1 = (none, [PARAM_PRECONDITION_MSG]) ∧
    save docA = (none, [SAVE_PRECONDITION_MSG]) := by
  have h := C7_parameterize_save_gate_amended roW none docA 1
  exact ⟨h.1 (by decide), h.2.2.1 (by decide)⟩
